import Mathlib

/-
Verification development for the threads-metrics service.

The Python sources under `src/threads_metrics/` are shallowly embedded as
executable Lean definitions:
  * machine time (datetimes, timedeltas) is modelled as integer seconds;
  * fractional second durations (Python floats) are modelled as rationals;
  * fallible operations return `Option`/`Except`;
  * dictionaries are modelled as association lists (first binding wins,
    matching Python dict key uniqueness).
Each definition's doc comment names the Python function it embeds.
-/

namespace ThreadsMetrics

/-! ## Association list helpers (Python dict access) -/

/-- `d.get(key)` on a Python dict modelled as an association list. -/
def alookup {α : Type} (l : List (String × α)) (k : String) : Option α :=
  List.lookup k l

/-! ## `state_store.py` -/

/-- Embeds `StateStore.should_refresh_post_metrics` (state_store.py lines 84-93).
`postTimestamps` models `self._state.post_metrics_updated_at` with datetimes as
integer seconds; a missing entry (or a falsy stored string) yields `none` from
`get_post_metrics_timestamp`.  `ttl_minutes` is converted to seconds because
`dt.timedelta(minutes=ttl_minutes)` spans `ttl_minutes * 60` seconds. -/
def should_refresh_post_metrics (postTimestamps : List (String × Int))
    (postId : String) (ttlMinutes : Int) (now : Int) : Bool :=
  match alookup postTimestamps postId with
  | none => true
  | some lastUpdate => decide (now - lastUpdate ≥ ttlMinutes * 60)

/-! ## Run lock (modelled from the spec)

`main.run_service` (main.py lines 150-188) calls `state_store.try_acquire_run_lock`
and `state_store.release_run_lock`, and `tests/test_state_store.py` exercises both
together with the persisted `run_started_at` field, but the `StateStore` methods
implementing them are not present in the copy of `state_store.py` under `src/`. -/

/-- Modelled from the spec: the run-lock slice of the persisted `AppState`
(`run_started_at: nullable timestamp (lock)`), with the timestamp as integer
seconds.  The implementation of the lock methods is missing from `src/`. -/
structure RunLockState where
  run_started_at : Option Int
deriving DecidableEq, Repr

/-- Modelled from the spec: `try_acquire_run_lock(max_age) -> bool` "succeeds if
no lock is held, or the held lock's age exceeds `max_age` (treated as abandoned
and overwritten); fails (returns false) otherwise."  Returns the boolean result
together with the state after the call; on success the lock is stamped with the
current time. -/
def try_acquire_run_lock (st : RunLockState) (maxAge : Int) (now : Int) :
    Bool × RunLockState :=
  match st.run_started_at with
  | none => (true, ⟨some now⟩)
  | some startedAt =>
      if now - startedAt > maxAge then (true, ⟨some now⟩)
      else (false, st)

/-- Modelled from the spec: `release_run_lock()` "clears the lock
unconditionally." -/
def release_run_lock (_st : RunLockState) : RunLockState :=
  ⟨none⟩

/-! ## `threads_client.py` — rate-limit-aware retry state machine -/

/-- Removes a key from a Python dict modelled as an association list
(`dict.pop(key, None)`). -/
def removeKey {α : Type} (l : List (String × α)) (k : String) : List (String × α) :=
  l.filter (fun p => p.1 ≠ k)

/-- Dict assignment `d[key] = v`: any old binding is dropped and the new one
recorded. -/
def setKey {α : Type} (l : List (String × α)) (k : String) (v : α) :
    List (String × α) :=
  removeKey l k ++ [(k, v)]

/-- Base-10 value of a list of ASCII digits. -/
def digitsToNat (ds : List Char) : Nat :=
  ds.foldl (fun acc c => acc * 10 + (c.toNat - '0'.toNat)) 0

/-- Python `str.strip()` on its character list. -/
def trimChars (cs : List Char) : List Char :=
  ((cs.dropWhile Char.isWhitespace).reverse.dropWhile Char.isWhitespace).reverse

/-- Python `str.strip()`. -/
def strip (s : String) : String :=
  String.mk (trimChars s.data)

/-- ASCII lower-casing of one character (the strings this system lowercases
are ASCII: colour hex codes and sheet header keys). -/
def charLower (c : Char) : Char :=
  if 'A' ≤ c && c ≤ 'Z' then Char.ofNat (c.toNat + 32) else c

/-- Python `str.lower()` on the ASCII strings used here. -/
def strLower (s : String) : String :=
  String.mk (s.data.map charLower)

/-- `needle` begins `hay`. -/
def leadsWith : List Char → List Char → Bool
  | [], _ => true
  | _ :: _, [] => false
  | a :: as, b :: bs => a = b && leadsWith as bs

/-- `needle` occurs somewhere in the character list. -/
def containsSubList (needle : List Char) : List Char → Bool
  | [] => leadsWith needle []
  | c :: rest => leadsWith needle (c :: rest) || containsSubList needle rest

/-- Models Python `float(s)` on plain decimal literals: optional sign, digits
with an optional single decimal point (at least one digit overall), surrounded
by optional whitespace.  Exponent/`inf`/`nan` literals are outside the inputs
relevant here and parse to `none`. -/
def parseDecimal? (s : String) : Option Rat :=
  let cs := trimChars s.data
  let (neg, rest) :=
    match cs with
    | '-' :: r => (true, r)
    | '+' :: r => (false, r)
    | r => (false, r)
  let intPart := rest.takeWhile Char.isDigit
  let rest2 := rest.dropWhile Char.isDigit
  match rest2 with
  | [] =>
      if intPart.isEmpty then none
      else
        some (if neg then -(digitsToNat intPart : Rat) else (digitsToNat intPart : Rat))
  | '.' :: fracRest =>
      let fracPart := fracRest.takeWhile Char.isDigit
      let rest3 := fracRest.dropWhile Char.isDigit
      if rest3.isEmpty && !(intPart.isEmpty && fracPart.isEmpty) then
        let magnitude : Rat := (digitsToNat intPart : Rat) +
          (digitsToNat fracPart : Rat) / ((10 : Rat) ^ fracPart.length)
        some (if neg then -magnitude else magnitude)
      else none
  | _ => none

/-- Python `max(x, 0.0)`. -/
def ratMax0 (q : Rat) : Rat :=
  if q < 0 then 0 else q

/-- JSON values, modelling the payload decoded by `json.loads`. -/
inductive Json where
  | null : Json
  | bool (b : Bool) : Json
  | num (q : Rat) : Json
  | str (s : String) : Json
  | arr (items : List Json) : Json
  | obj (fields : List (String × Json)) : Json

mutual

/-- Embeds `ThreadsClient._find_estimated_time` (threads_client.py lines
353-366): depth-first search for the `estimated_time_to_regain_access` key.
When a dict carries the key, Python returns `data.get(key)` immediately; a JSON
`null` value there comes back as Python `None`, which every caller treats as
"not found", hence the `.null ↦ none` case. -/
def find_estimated_time : Json → Option Json
  | .obj fields =>
      match List.lookup "estimated_time_to_regain_access" fields with
      | some v =>
          match v with
          | .null => none
          | _ => some v
      | none => find_estimated_fields fields
  | .arr items => find_estimated_items items
  | .null | .bool _ | .num _ | .str _ => none

/-- Recursion of `_find_estimated_time` over the values of a dict. -/
def find_estimated_fields : List (String × Json) → Option Json
  | [] => none
  | (_, v) :: rest =>
      match find_estimated_time v with
      | some found => some found
      | none => find_estimated_fields rest

/-- Recursion of `_find_estimated_time` over the items of a list. -/
def find_estimated_items : List Json → Option Json
  | [] => none
  | v :: rest =>
      match find_estimated_time v with
      | some found => some found
      | none => find_estimated_items rest

end

/-- Models `float(x)` applied to a JSON value (`TypeError`/`ValueError` give
`none`). -/
def jsonToRat : Json → Option Rat
  | .num q => some q
  | .str s => parseDecimal? s
  | .bool b => some (if b then 1 else 0)
  | .null => none
  | .arr _ => none
  | .obj _ => none

/-- Embeds `ThreadsClient._parse_usage_header` (threads_client.py lines
340-351); the argument is the already-decoded JSON payload of the
`X-Business-Use-Case-Usage` header, with a `json.JSONDecodeError` folded into a
`none` payload. -/
def parse_usage_header (payload : Option Json) : Option Rat :=
  match payload with
  | none => none
  | some j =>
      match find_estimated_time j with
      | none => none
      | some v =>
          match jsonToRat v with
          | none => none
          | some q => some (ratMax0 q)

/-- Embeds `ThreadsClient._parse_retry_after` (threads_client.py lines
330-338). -/
def parse_retry_after (rawValue : String) : Option Rat :=
  let r := strip rawValue
  if r = "" then none
  else
    match parseDecimal? r with
    | some q => some (ratMax0 q)
    | none => none

/-- HTTP response headers as consumed by `_extract_rate_limit_wait`:
the raw `Retry-After` value and the decoded `X-Business-Use-Case-Usage` JSON
(`none` models both an absent header and an undecodable one). -/
structure ResponseHeaders where
  retryAfter : Option String
  businessUsage : Option Json

/-- The `Retry-After` branch of `_extract_rate_limit_wait` (threads_client.py
lines 318-322): the header must be present and truthy, and must parse. -/
def retryAfterWait (headers : ResponseHeaders) : Option Rat :=
  match headers.retryAfter with
  | some raw => if raw = "" then none else parse_retry_after raw
  | none => none

/-- The `X-Business-Use-Case-Usage` branch of `_extract_rate_limit_wait`
(threads_client.py lines 323-327). -/
def businessUsageWait (headers : ResponseHeaders) : Option Rat :=
  match headers.businessUsage with
  | some payload => parse_usage_header (some payload)
  | none => none

/-- Embeds `ThreadsClient._extract_rate_limit_wait` (threads_client.py lines
317-328), returning the wait and its source label. -/
def extract_rate_limit_wait (headers : ResponseHeaders) : Option Rat × String :=
  match retryAfterWait headers with
  | some w => (some w, "retry_after")
  | none =>
      match businessUsageWait headers with
      | some w => (some w, "business_use_case")
      | none => (none, "unknown")

/-- `ThreadsClient._DEFAULT_INITIAL_BACKOFF_SECONDS * _DEFAULT_BACKOFF_MULTIPLIER ** max(attempt-1, 0)`
(threads_client.py lines 368-372). -/
def compute_default_wait (attempt : Nat) : Rat :=
  5 * (3 : Rat) ^ (attempt - 1)

/-- `ThreadsClient._compute_rate_limit_wait` (threads_client.py lines
374-378). -/
def compute_rate_limit_wait (attempt : Nat) : Rat :=
  10 * (2 : Rat) ^ (attempt - 1)

/-- `ThreadsClient._RATE_LIMIT_ERROR_FRAGMENT`. -/
def RATE_LIMIT_ERROR_FRAGMENT : String :=
  "There have been too many calls for this Threads profile"

/-- Python `sub in s`. -/
def containsSubstring (s sub : String) : Bool :=
  containsSubList sub.data s.data

/-- An HTTP error response as seen by `_resolve_wait_for_status_error`. -/
structure HttpResponse where
  statusCode : Int
  bodyText : String
  headers : ResponseHeaders

/-- Embeds `ThreadsClient._resolve_wait_for_status_error` (threads_client.py
lines 302-315): `(wait_seconds, reason, source)`. -/
def resolve_wait_for_status_error (attempt : Nat) (resp : HttpResponse) :
    Rat × String × String :=
  if resp.statusCode = 403 ∧ containsSubstring resp.bodyText RATE_LIMIT_ERROR_FRAGMENT then
    match extract_rate_limit_wait resp.headers with
    | (some w, source) => (w, "threads_profile_rate_limit", source)
    | (none, _) =>
        (compute_rate_limit_wait attempt, "threads_profile_rate_limit", "fallback_backoff")
  else
    (compute_default_wait attempt, "http_status", "static_backoff")

/-- The mutable client state touched by `_request`: the per-account cooldown
deadlines (`self._account_cooldowns`) and the loop clock (`loop.time()`),
advanced by every `asyncio.sleep`. -/
structure ClientState where
  cooldowns : List (String × Rat)
  now : Rat
deriving DecidableEq, Repr

/-- The outcome of one `self._client.get(...)` call inside `_request`:
success, an HTTP status error (`httpx.HTTPStatusError`), or a network-level
error (`httpx.HTTPError`). -/
inductive AttemptOutcome where
  | success : AttemptOutcome
  | statusError (resp : HttpResponse) : AttemptOutcome
  | networkError : AttemptOutcome

/-- Embeds `ThreadsClient._schedule_account_cooldown` (threads_client.py lines
262-268). -/
def schedule_account_cooldown (st : ClientState) (account : Option String)
    (waitSeconds : Rat) : ClientState :=
  match account with
  | none => st
  | some name =>
      if waitSeconds ≤ 0 then { st with cooldowns := removeKey st.cooldowns name }
      else { st with cooldowns := setKey st.cooldowns name (st.now + waitSeconds) }

/-- Embeds `ThreadsClient._clear_account_cooldown` (threads_client.py lines
258-260). -/
def clear_account_cooldown (st : ClientState) (account : Option String) :
    ClientState :=
  match account with
  | none => st
  | some name => { st with cooldowns := removeKey st.cooldowns name }

/-- Embeds `ThreadsClient._respect_account_cooldown` (threads_client.py lines
238-256): returns the seconds slept waiting out the account's cooldown and the
state afterwards (an expired entry is popped; a live entry is slept on and left
in place). -/
def respect_account_cooldown (st : ClientState) (account : Option String) :
    Rat × ClientState :=
  match account with
  | none => (0, st)
  | some name =>
      match alookup st.cooldowns name with
      | none => (0, st)
      | some waitUntil =>
          if waitUntil ≤ st.now then
            (0, { st with cooldowns := removeKey st.cooldowns name })
          else
            (waitUntil - st.now, { st with now := waitUntil })

/-- `ThreadsClient._MAX_ATTEMPTS`. -/
def MAX_ATTEMPTS : Nat := 5

/-- What one iteration of the `_request` retry loop does after its HTTP call:
return the payload, re-raise the error (final attempt), or sleep `backoffWait`
seconds and retry. -/
inductive AttemptAction where
  | returned : AttemptAction
  | raised : AttemptAction
  | retry (backoffWait : Rat) : AttemptAction
deriving DecidableEq, Repr

/-- Result of one iteration of the `_request` loop. -/
structure AttemptResult where
  state : ClientState
  cooldownSleep : Rat
  action : AttemptAction

/-- The common backoff tail of a non-final failed attempt in
`ThreadsClient._request`: `_schedule_account_cooldown(account, wait)` followed
by `_sleep_with_logging(wait, ...)`, which clamps the sleep at 0; `p` is the
pre-call `(slept, state)` pair from `_respect_account_cooldown`. -/
def retry_backoff_step (p : Rat × ClientState) (account : Option String)
    (waitSeconds : Rat) : AttemptResult :=
  { state :=
      { schedule_account_cooldown p.2 account waitSeconds with
        now := (schedule_account_cooldown p.2 account waitSeconds).now +
          ratMax0 waitSeconds },
    cooldownSleep := p.1,
    action := .retry waitSeconds }

/-- Embeds one iteration of the retry loop of `ThreadsClient._request`
(threads_client.py lines 163-231) for attempt number `attempt`: wait out the
account cooldown, make the call (summarised by `outcome`), then either return,
re-raise on the final attempt, or schedule a cooldown and sleep out the
backoff. -/
def request_attempt (st0 : ClientState) (account : Option String)
    (attempt : Nat) (outcome : AttemptOutcome) : AttemptResult :=
  match outcome with
  | .success =>
      { state := clear_account_cooldown (respect_account_cooldown st0 account).2 account,
        cooldownSleep := (respect_account_cooldown st0 account).1,
        action := .returned }
  | .statusError resp =>
      if attempt ≥ MAX_ATTEMPTS then
        { state := (respect_account_cooldown st0 account).2,
          cooldownSleep := (respect_account_cooldown st0 account).1,
          action := .raised }
      else
        retry_backoff_step (respect_account_cooldown st0 account) account
          (resolve_wait_for_status_error attempt resp).1
  | .networkError =>
      if attempt ≥ MAX_ATTEMPTS then
        { state := (respect_account_cooldown st0 account).2,
          cooldownSleep := (respect_account_cooldown st0 account).1,
          action := .raised }
      else
        retry_backoff_step (respect_account_cooldown st0 account) account
          (compute_default_wait attempt)

/-- A failed attempt that is not the platform rate-limit case: a network-level
error, or an HTTP status error whose response is not a 403 carrying the
rate-limit phrase. -/
def isTransientFailure : AttemptOutcome → Bool
  | .networkError => true
  | .statusError resp =>
      !(resp.statusCode == 403 &&
        containsSubstring resp.bodyText RATE_LIMIT_ERROR_FRAGMENT)
  | .success => false

/-! ## Calendar arithmetic

Python `datetime` objects are modelled as instants in integer seconds since the
Unix epoch.  The civil-calendar conversions below implement the proleptic
Gregorian calendar (Hinnant's algorithm), which is the calendar `datetime`
uses. -/

/-- Day count since 1970-01-01 of a civil date. -/
def daysFromCivil (y m d : Int) : Int :=
  let y1 := if m ≤ 2 then y - 1 else y
  let era := (if 0 ≤ y1 then y1 else y1 - 399).tdiv 400
  let yoe := y1 - era * 400
  let mp := (m + 9).tmod 12
  let doy := (153 * mp + 2).tdiv 5 + d - 1
  let doe := yoe * 365 + yoe.tdiv 4 - yoe.tdiv 100 + doy
  era * 146097 + doe - 719468

/-- Civil date `(y, m, d)` of a day count since 1970-01-01. -/
def civilFromDays (z0 : Int) : Int × Int × Int :=
  let z := z0 + 719468
  let era := (if 0 ≤ z then z else z - 146096).tdiv 146097
  let doe := z - era * 146097
  let yoe := (doe - doe.tdiv 1460 + doe.tdiv 36524 - doe.tdiv 146096).tdiv 365
  let y0 := yoe + era * 400
  let doy := doe - (365 * yoe + yoe.tdiv 4 - yoe.tdiv 100)
  let mp := (5 * doy + 2).tdiv 153
  let d := doy - (153 * mp + 2).tdiv 5 + 1
  let m := mp + (if mp < 10 then 3 else -9)
  (if m ≤ 2 then y0 + 1 else y0, m, d)

/-- Reads exactly `n` ASCII digits from the front of `cs`. -/
def parseFixedDigits (cs : List Char) (n : Nat) : Option (Int × List Char) :=
  let ds := cs.take n
  if ds.length = n && ds.all Char.isDigit then
    some ((digitsToNat ds : Int), cs.drop n)
  else none

/-- Parses the date-time part `YYYY-MM-DDTHH:MM:SS`, returning the naive
second count since the epoch and the remaining characters. -/
def parseNaiveDateTime (cs : List Char) : Option (Int × List Char) :=
  match parseFixedDigits cs 4 with
  | some (y, '-' :: r1) =>
    match parseFixedDigits r1 2 with
    | some (m, '-' :: r2) =>
      match parseFixedDigits r2 2 with
      | some (d, 'T' :: r3) =>
        match parseFixedDigits r3 2 with
        | some (h, ':' :: r4) =>
          match parseFixedDigits r4 2 with
          | some (mi, ':' :: r5) =>
            match parseFixedDigits r5 2 with
            | some (s, rest) =>
                some (daysFromCivil y m d * 86400 + h * 3600 + mi * 60 + s, rest)
            | _ => none
          | _ => none
        | _ => none
      | _ => none
    | _ => none
  | _ => none

/-- Parses a UTC-offset suffix in the forms accepted by `strptime`'s `%z` for
the timestamps this system sees: `Z`, `±HHMM`, `±HH:MM`.  Returns the offset in
minutes and requires the whole input to be consumed. -/
def parseUtcOffsetMinutes (cs : List Char) : Option Int :=
  match cs with
  | ['Z'] => some 0
  | c :: rest =>
      if c = '+' ∨ c = '-' then
        match parseFixedDigits rest 2 with
        | some (hh, rest2) =>
            let signed : Int → Int := fun x => if c = '-' then -x else x
            match rest2 with
            | [] => some (signed (hh * 60))
            | ':' :: rest3 =>
                match parseFixedDigits rest3 2 with
                | some (mm, []) => some (signed (hh * 60 + mm))
                | _ => none
            | _ =>
                match parseFixedDigits rest2 2 with
                | some (mm, []) => some (signed (hh * 60 + mm))
                | _ => none
        | none => none
      else none
  | [] => none

/-- Instant (seconds since the Unix epoch) of an offset-aware ISO-8601
timestamp `YYYY-MM-DDTHH:MM:SS<offset>`; `none` when the string does not have
that shape. -/
def parseAwareDateTime (s : String) : Option Int :=
  match parseNaiveDateTime s.data with
  | some (naive, rest) =>
      match parseUtcOffsetMinutes rest with
      | some offsetMinutes => some (naive - offsetMinutes * 60)
      | none => none
  | none => none

/-- Zero-padded two-digit rendering of a calendar component. -/
def pad2 (n : Int) : String :=
  if n < 10 then "0" ++ toString n else toString n

/-- `datetime.isoformat()` of an instant expressed at a fixed UTC offset given
in minutes (microseconds are zero for the instants this system builds). -/
def isoformatAtOffset (instant : Int) (offsetMinutes : Int) : String :=
  let localSeconds := instant + offsetMinutes * 60
  let days := localSeconds.ediv 86400
  let sod := localSeconds.emod 86400
  let ymd := civilFromDays days
  let offAbs : Nat := offsetMinutes.natAbs
  toString ymd.1 ++ "-" ++ pad2 ymd.2.1 ++ "-" ++ pad2 ymd.2.2 ++ "T" ++
    pad2 (sod.tdiv 3600) ++ ":" ++ pad2 ((sod.tmod 3600).tdiv 60) ++ ":" ++
    pad2 (sod.tmod 60) ++
    (if offsetMinutes < 0 then "-" else "+") ++
    pad2 (offAbs / 60 : Nat) ++ ":" ++ pad2 (offAbs % 60 : Nat)

/-- The fixed target zone `TIMEZONE = dt.timezone(dt.timedelta(hours=3))`
(state_store.py line 10), as an offset in minutes. -/
def TIMEZONE_OFFSET_MINUTES : Int := 180

/-! ## `aggregation.py` -/

/-- Modelled from the spec: `constants.PUBLISH_TIME_COLUMN` — the module
`constants.py` is imported by `aggregation.py` and `google_sheets.py` but is
not present under `src/`; the spec's AggregatedRow names the column
`publish_time`. -/
def PUBLISH_TIME_COLUMN : String := "publish_time"

/-- Embeds `aggregation._convert_timestamp` (aggregation.py lines 67-76):
falsy input gives `""`; a string matching `%Y-%m-%dT%H:%M:%S%z` is re-expressed
at the +03:00 target zone via `astimezone(TIMEZONE).isoformat()`; anything else
passes through unchanged. -/
def convert_timestamp (rawValue : Option String) : String :=
  match rawValue with
  | none => ""
  | some raw =>
      if raw = "" then ""
      else
        match parseAwareDateTime raw with
        | some instant => isoformatAtOffset instant TIMEZONE_OFFSET_MINUTES
        | none => raw

/-- A cell value of an aggregated row or a DataFrame: `na` models Python
`None` / pandas `NA`; integers and strings cover the values this pipeline
produces. -/
inductive Value where
  | na : Value
  | str (s : String) : Value
  | int (n : Int) : Value
deriving DecidableEq, Repr

/-- A Python dict row, keyed by column name. -/
abbrev Record := List (String × Value)

/-- `row.get(column)` with pandas missing-value semantics. -/
def Record.get (r : Record) (c : String) : Value :=
  match List.lookup c r with
  | some v => v
  | none => .na

/-- Python truthiness of an optional string. -/
def truthyOptStr : Option String → Bool
  | none => false
  | some s => s ≠ ""

/-- An optional string as a row value (`None` becomes `na`). -/
def optStrValue : Option String → Value
  | some s => .str s
  | none => .na

/-- An optional integer as a row value (`None` becomes `na`). -/
def optIntValue : Option Int → Value
  | some n => .int n
  | none => .na

/-- The fields of a Threads post dict that `aggregate_posts` reads; a field
absent from the dict (or set to `None`) is `none`. -/
structure RawPost where
  id : Option String := none
  account_name : Option String := none
  permalink : Option String := none
  text : Option String := none
  timestamp : Option String := none
  like_count : Option Int := none
  reply_count : Option Int := none
  repost_count : Option Int := none

/-- The row built for one post inside the loop of `aggregation.aggregate_posts`
(aggregation.py lines 18-63). -/
def aggregate_post_row (post : RawPost) (postId : String)
    (insights : List (String × List (String × Int))) : Record :=
  let insight := (alookup insights postId).getD []
  let hasInsight := (alookup insights postId).isSome
  let postLikeCount := post.like_count.getD 0
  let postReplyCount := post.reply_count.getD 0
  let postRepostCount := post.repost_count.getD 0
  let likeValue :=
    if hasInsight then (List.lookup "likes" insight).getD postLikeCount
    else postLikeCount
  let replyValue :=
    if hasInsight then (List.lookup "replies" insight).getD postReplyCount
    else postReplyCount
  let repostValue :=
    if hasInsight then (List.lookup "reposts" insight).getD postRepostCount
    else postRepostCount
  [(PUBLISH_TIME_COLUMN, .str (convert_timestamp post.timestamp)),
   ("account_name", optStrValue post.account_name),
   ("post_id", .str postId),
   ("permalink", optStrValue post.permalink),
   ("text", optStrValue post.text),
   ("views", if hasInsight then optIntValue (List.lookup "views" insight) else .na),
   ("likes", .int likeValue),
   ("replies", .int replyValue),
   ("reposts", .int repostValue),
   ("quotes", if hasInsight then optIntValue (List.lookup "quotes" insight) else .na),
   ("shares", if hasInsight then optIntValue (List.lookup "shares" insight) else .na)]

/-- Embeds `aggregation.aggregate_posts` (aggregation.py lines 11-64): posts
with a falsy id are skipped; each remaining post yields one row. -/
def aggregate_posts (posts : List RawPost)
    (insights : List (String × List (String × Int))) : List Record :=
  posts.filterMap fun post =>
    if truthyOptStr post.id then
      some (aggregate_post_row post (post.id.getD "") insights)
    else none

/- Sanity checks against `tests/test_main.py::test_aggregate_posts_merges_insights`. -/
example :
    convert_timestamp (some "2025-10-06T19:16:42+0000") =
      "2025-10-06T22:16:42+03:00" := by decide
example :
    convert_timestamp (some "2025-10-07T01:00:00+0000") =
      "2025-10-07T04:00:00+03:00" := by decide
example : convert_timestamp (some "not a date") = "not a date" := by decide
example : convert_timestamp none = "" := by decide

/-! ## `main.collect_posts` — per-account fan-out with failure isolation -/

/-- The `AccountToken` dataclass (google_sheets.py lines 39-44). -/
structure AccountToken where
  account_name : String
  token : String
deriving DecidableEq, Repr

/-- The `ThreadsPost` dataclass (threads_client.py lines 31-37). -/
structure ThreadsPost where
  id : String
  permalink : String
  data : Record

/-- Python dict update `d[key] = v` / `d | {key: v}`: an existing binding is
overwritten in place, a new key is appended. -/
def Record.set (r : Record) (c : String) (v : Value) : Record :=
  if (List.lookup c r).isSome then
    r.map fun p => if p.1 == c then (c, v) else p
  else r ++ [(c, v)]

/-- How one `client.fetch_posts` call for an account ends, as observed by
`collect_posts`: a result, or one of the exception classes `_request` can
propagate — `httpx.HTTPStatusError` (final-attempt HTTP status error),
`ThreadsAPIError` (exhausted-retries client error), or a network-level
`httpx.HTTPError` that is neither. -/
inductive FetchOutcome where
  | ok (posts : List ThreadsPost) (nextCursor : Option String) : FetchOutcome
  | statusError : FetchOutcome
  | clientError : FetchOutcome
  | networkError : FetchOutcome

/-- Embeds `_collect_for_account` inside `main.collect_posts` (main.py lines
198-246): `except (httpx.HTTPStatusError, ThreadsAPIError)` degrades to zero
posts, every other exception propagates (`Except.error`), and a success builds
`post.data | {"permalink": ..., "account_name": ...}` per post plus a cursor
update when the result's `next_cursor` is truthy. -/
def collect_for_account (token : AccountToken) (outcome : FetchOutcome) :
    Except Unit (List Record × Option String) :=
  match outcome with
  | .ok posts nextCursor =>
      let postsData := posts.map fun post =>
        (post.data.set "permalink" (.str post.permalink)).set
          "account_name" (.str token.account_name)
      let cursorUpdate :=
        match nextCursor with
        | some c => if c = "" then none else some c
        | none => none
      .ok (postsData, cursorUpdate)
  | .statusError => .ok ([], none)
  | .clientError => .ok ([], none)
  | .networkError => .error ()

/-- Embeds `main.collect_posts` (main.py lines 191-257): the bounded fan-out is
gathered with `return_exceptions=False`, so results are concatenated in account
order and any uncaught per-account exception propagates out of the whole
call. -/
def collect_posts (tokens : List AccountToken)
    (outcomes : AccountToken → FetchOutcome) : Except Unit (List Record) :=
  match tokens with
  | [] => .ok []
  | t :: rest =>
      match collect_for_account t (outcomes t), collect_posts rest outcomes with
      | .ok (posts, _), .ok acc => .ok (posts ++ acc)
      | _, _ => .error ()

/-! ## `GoogleSheetsClient.read_account_tokens` -/

/-- `IGNORED_BACKGROUND_COLOR` (google_sheets.py line 23). -/
def IGNORED_BACKGROUND_COLOR : String := "#9fc5e8"

/-- `NOT_DETERMINED_COLOR` (google_sheets.py line 25). -/
def NOT_DETERMINED_COLOR : String := "not determinate"

/-- Whitespace-separated words of a character list, accumulator-style
(Python `str.split()` with no argument, which discards empty chunks). -/
def splitWordsAux : List Char → List Char → List String
  | [], acc => if acc.isEmpty then [] else [String.mk acc.reverse]
  | c :: rest, acc =>
      if c.isWhitespace then
        if acc.isEmpty then splitWordsAux rest []
        else String.mk acc.reverse :: splitWordsAux rest []
      else splitWordsAux rest (c :: acc)

/-- The header normalisation `"_".join(str(key).strip().lower().split())`
(google_sheets.py lines 112-115). -/
def normalizeHeaderKey (k : String) : String :=
  String.intercalate "_" (splitWordsAux (strLower k).data [])

/-- Embeds `GoogleSheetsClient._get_first_present` (google_sheets.py lines
200-206): the first listed key bound to a truthy value. -/
def get_first_present (row : List (String × String)) : List String → Option String
  | [] => none
  | k :: rest =>
      match List.lookup k row with
      | some v => if v ≠ "" then some v else get_first_present row rest
      | none => get_first_present row rest

/-- One row's skip test in `read_account_tokens` (google_sheets.py line 143):
the resolved background colour is truthy and lowercases to the ignored
colour. -/
def rowColorMarked (backgroundColor : String) : Bool :=
  backgroundColor ≠ "" && strLower backgroundColor = strLower IGNORED_BACKGROUND_COLOR

/-- The `background_colors.get(index, ...)` resolution for one row
(google_sheets.py lines 125-127). -/
def rowBackgroundColor (backgroundColors : List (Nat × String)) (idx : Nat) : String :=
  (List.lookup idx backgroundColors).getD NOT_DETERMINED_COLOR

/-- The token field of one normalised credential row (google_sheets.py lines
116-118). -/
def rowToken (row : List (String × String)) : Option String :=
  get_first_present (row.map fun p => (normalizeHeaderKey p.1, p.2))
    ["token", "access_token", "bearer_token"]

/-- The account field of one normalised credential row (google_sheets.py lines
119-121). -/
def rowAccount (row : List (String × String)) : Option String :=
  get_first_present (row.map fun p => (normalizeHeaderKey p.1, p.2))
    ["account", "name", "nickname"]

/-- The loop of `GoogleSheetsClient.read_account_tokens` (google_sheets.py
lines 108-159) over the remaining records, starting at sheet row `idx`;
`backgroundColors` is the map returned by `_get_column_background_colors`
(a missing row resolves to `NOT_DETERMINED_COLOR`). -/
def read_account_rows (backgroundColors : List (Nat × String)) :
    Nat → List (List (String × String)) → List AccountToken
  | _, [] => []
  | idx, row :: rest =>
      if rowColorMarked (rowBackgroundColor backgroundColors idx) then
        read_account_rows backgroundColors (idx + 1) rest
      else
        match rowToken row, rowAccount row with
        | some t, some a =>
            ⟨a, t⟩ :: read_account_rows backgroundColors (idx + 1) rest
        | _, _ => read_account_rows backgroundColors (idx + 1) rest

/-- Embeds `GoogleSheetsClient.read_account_tokens` (google_sheets.py lines
80-198): records are enumerated from sheet row 2. -/
def read_account_tokens (records : List (List (String × String)))
    (backgroundColors : List (Nat × String)) : List AccountToken :=
  read_account_rows backgroundColors 2 records

/- Sanity check against
`tests/test_google_sheets.py::test_read_account_tokens_supports_bearer_headers`. -/
example :
    read_account_tokens [[(" NickName ", "Account"), ("BEARER   TOKEN", "token-value")]]
      [(2, "#ffffff")] = [⟨"Account", "token-value"⟩] := by decide

/-! ## `google_sheets.py` — the tabular merge engine

pandas DataFrames are modelled as a column list plus one association-list
record per row.  The pandas behaviours the source leans on are embedded as
they act on these inputs: `combine_first` outer-aligns rows and columns
(returning an operand's order when the two labels coincide and the
lexicographically sorted union otherwise), `update` overwrites with non-NA
values, `drop_duplicates(keep="last")` keeps last occurrences in original
order, and `sort_values(kind="mergesort", na_position="first")` is a stable
ascending sort with missing keys first. -/

/-- Embeds `GoogleSheetsClient._normalize_key` (google_sheets.py lines
629-633): `na` becomes `""`, anything else its trimmed string form. -/
def normalize_key (v : Value) : Value :=
  match v with
  | .na => .str ""
  | .str s => .str (strip s)
  | .int n => .str (strip (toString n))

/-- Embeds `GoogleSheetsClient._stringify_value` (google_sheets.py lines
635-641).  The float-with-integral-value branch concerns floats pandas makes
out of mixed numeric columns, which this model's value space does not
contain. -/
def stringify_value (v : Value) : String :=
  match v with
  | .na => ""
  | .str s => s
  | .int n => toString n

/-- A pandas DataFrame as the pipeline uses it. -/
structure Df where
  cols : List String
  recs : List Record
deriving DecidableEq, Repr

/-- Column order of `pd.DataFrame(list_of_dicts)`: first-appearance order of
the dict keys. -/
def dfColsOfRecords (records : List Record) : List String :=
  records.foldl
    (fun acc r => r.foldl (fun acc2 p => if p.1 ∈ acc2 then acc2 else acc2 ++ [p.1]) acc)
    []

/-- `pd.DataFrame(list_of_dicts)`. -/
def dfFromRecords (records : List Record) : Df :=
  { cols := dfColsOfRecords records, recs := records }

/-- `df.empty`: one of the axes has length zero. -/
def Df.isEmptyDf (d : Df) : Bool :=
  d.cols.isEmpty || d.recs.isEmpty

/-- Scalar column assignment `df[col] = value`. -/
def Df.setColumn (d : Df) (c : String) (v : Value) : Df :=
  { cols := if c ∈ d.cols then d.cols else d.cols ++ [c],
    recs := d.recs.map (fun r => r.set c v) }

/-- `df[col] = df[col].map(fn)`. -/
def Df.mapColumn (d : Df) (c : String) (f : Value → Value) : Df :=
  { d with recs := d.recs.map (fun r => r.set c (f (r.get c))) }

/-- The key-column selection shared by `_merge_existing` and `_deduplicate`
(google_sheets.py lines 555-561 and 594-596): the present ones among
`account_name`/`post_id`, else every non-timestamp column. -/
def selectKeyColumns (cols : List String) (timestampColumn : String) : List String :=
  let keyColumns := ["account_name", "post_id"].filter (fun c => c ∈ cols)
  if keyColumns.isEmpty then cols.filter (fun c => c ≠ timestampColumn)
  else keyColumns

/-- The tuple a row is keyed by. -/
def keyOf (keyColumns : List String) (r : Record) : List Value :=
  keyColumns.map r.get

/-- `df.drop_duplicates(subset=key_columns, keep="last")`: keeps each key's
last occurrence, in original order. -/
def dropDupKeepLast (keyColumns : List String) : List Record → List Record
  | [] => []
  | r :: rest =>
      if rest.any (fun r2 => keyOf keyColumns r2 = keyOf keyColumns r) then
        dropDupKeepLast keyColumns rest
      else r :: dropDupKeepLast keyColumns rest

/-- Embeds `GoogleSheetsClient._deduplicate` (google_sheets.py lines
593-603). -/
def deduplicate (d : Df) (timestampColumn : String) : Df :=
  let keyColumns := selectKeyColumns d.cols timestampColumn
  if keyColumns.isEmpty then d
  else
    let normalized := keyColumns.foldl (fun df c => df.mapColumn c normalize_key) d
    { normalized with recs := dropDupKeepLast keyColumns normalized.recs }

/-- Lexicographic order on code points, how Python compares strings. -/
def charsLt : List Char → List Char → Bool
  | _, [] => false
  | [], _ :: _ => true
  | a :: as, b :: bs =>
      if a.toNat < b.toNat then true
      else if b.toNat < a.toNat then false
      else charsLt as bs

/-- String comparison via the character list. -/
def strLt (a b : String) : Bool := charsLt a.data b.data

/-- The string a normalised key component compares by. -/
def valueKeyString : Value → String
  | .str s => s
  | .int n => toString n
  | .na => ""

/-- Lexicographic order on key tuples (merge keys are normalised strings). -/
def keyListLt : List Value → List Value → Bool
  | [], [] => false
  | [], _ :: _ => true
  | _ :: _, [] => false
  | a :: as, b :: bs =>
      if strLt (valueKeyString a) (valueKeyString b) then true
      else if strLt (valueKeyString b) (valueKeyString a) then false
      else keyListLt as bs

/-- Stable ascending insertion: `x` goes after every strictly smaller element
and before ties. -/
def insertStable {α : Type} (lt : α → α → Bool) (x : α) : List α → List α
  | [] => [x]
  | y :: ys => if lt y x then y :: insertStable lt x ys else x :: y :: ys

/-- Stable ascending sort (the semantics of `kind="mergesort"`). -/
def sortStable {α : Type} (lt : α → α → Bool) : List α → List α
  | [] => []
  | x :: xs => insertStable lt x (sortStable lt xs)

/-- `Index.union` as the outer alignment inside `combine_first` performs it:
identical label lists come back unchanged, otherwise the deduplicated union is
sorted lexicographically. -/
def indexUnion (a b : List (List Value)) : List (List Value) :=
  if a = b then a else sortStable keyListLt (a ++ b).dedup

/-- Column-label union with the same identical-or-sorted rule. -/
def columnsUnion (a b : List String) : List String :=
  if a = b then a else sortStable strLt (a ++ b).dedup

/-- A DataFrame after `set_index(key_columns)`: the index tuples sit beside
the remaining columns. -/
structure IndexedDf where
  keyColumns : List String
  cols : List String
  rows : List (List Value × Record)
deriving DecidableEq, Repr

/-- `df.loc[k]` on an indexed frame (index labels are unique after the
preceding `drop_duplicates`). -/
def IndexedDf.find (d : IndexedDf) (k : List Value) : Option Record :=
  (d.rows.find? (fun p => p.1 = k)).map Prod.snd

/-- `df.set_index(key_columns)`. -/
def Df.setIndex (d : Df) (keyColumns : List String) : IndexedDf :=
  { keyColumns := keyColumns,
    cols := d.cols.filter (fun c => c ∉ keyColumns),
    rows := d.recs.map (fun r => (keyOf keyColumns r, r.filter (fun p => p.1 ∉ keyColumns))) }

/-- The `existing_df[column] = pd.NA` / `new_df[column] = pd.NA` loops of
`_merge_existing` (google_sheets.py lines 582-587): absent columns are
appended and read as `na`. -/
def IndexedDf.addMissingColumns (d : IndexedDf) (other : List String) : IndexedDf :=
  { d with cols := d.cols ++ other.filter (fun c => c ∉ d.cols) }

/-- `base.combine_first(other)` (google_sheets.py line 589): rows and columns
are outer-aligned; each cell takes the base value unless it is `na`. -/
def combineFirst (base other : IndexedDf) : IndexedDf :=
  let keys := indexUnion (base.rows.map Prod.fst) (other.rows.map Prod.fst)
  let cols := columnsUnion base.cols other.cols
  { keyColumns := base.keyColumns,
    cols := cols,
    rows := keys.map fun k =>
      (k, cols.map fun c =>
        let bv := match base.find k with | some r => r.get c | none => Value.na
        let ov := match other.find k with | some r => r.get c | none => Value.na
        (c, if bv ≠ Value.na then bv else ov)) }

/-- `merged.update(other)` (google_sheets.py line 590): cells at matching
index labels are overwritten by the other frame's non-`na` values. -/
def IndexedDf.updateWith (d other : IndexedDf) : IndexedDf :=
  { d with rows := d.rows.map fun p =>
      (p.1,
        match other.find p.1 with
        | some ro =>
            p.2.map fun cell =>
              let ov := ro.get cell.1
              (cell.1, if ov ≠ Value.na then ov else cell.2)
        | none => p.2) }

/-- `merged.reset_index()`: index levels become the leading columns. -/
def IndexedDf.resetIndex (d : IndexedDf) : Df :=
  { cols := d.keyColumns ++ d.cols,
    recs := d.rows.map fun p => d.keyColumns.zip p.1 ++ p.2 }

/-- The `if column not in existing_df.columns: existing_df[column] = pd.NA`
loop of `_merge_existing` (google_sheets.py lines 570-572). -/
def ensureKeyColumns (kc : List String) (d : Df) : Df :=
  kc.foldl (fun df c => if c ∈ df.cols then df else df.setColumn c Value.na) d

/-- The `df[column] = df[column].map(_normalize_key)` loop of
`_merge_existing` (google_sheets.py lines 573-574). -/
def normalizeKeyColumns (kc : List String) (d : Df) : Df :=
  kc.foldl (fun df c => df.mapColumn c normalize_key) d

/-- `df.drop_duplicates(subset=key_columns, keep="last")` at frame level
(google_sheets.py lines 576-577). -/
def dropDupFrame (kc : List String) (d : Df) : Df :=
  { d with recs := dropDupKeepLast kc d.recs }

/-- The indexed existing frame of `_merge_existing` before column padding:
pad key columns, normalise them, drop duplicate keys, set the index
(google_sheets.py lines 570-579). -/
def existingIndexedBase (existingDf newDf : Df) (ts : String) : IndexedDf :=
  (dropDupFrame (selectKeyColumns newDf.cols ts)
    (normalizeKeyColumns (selectKeyColumns newDf.cols ts)
      (ensureKeyColumns (selectKeyColumns newDf.cols ts) existingDf))).setIndex
    (selectKeyColumns newDf.cols ts)

/-- The indexed incoming frame of `_merge_existing` before column padding
(google_sheets.py lines 573-580). -/
def newIndexedBase (existingDf newDf : Df) (ts : String) : IndexedDf :=
  (dropDupFrame (selectKeyColumns newDf.cols ts)
    (normalizeKeyColumns (selectKeyColumns newDf.cols ts) newDf)).setIndex
    (selectKeyColumns newDf.cols ts)

/-- The existing frame after the missing-column loop of `_merge_existing`
(google_sheets.py lines 582-584). -/
def existingIndexed (existingDf newDf : Df) (ts : String) : IndexedDf :=
  (existingIndexedBase existingDf newDf ts).addMissingColumns
    (newIndexedBase existingDf newDf ts).cols

/-- The incoming frame after the missing-column loop of `_merge_existing`
(google_sheets.py lines 585-587). -/
def newIndexed (existingDf newDf : Df) (ts : String) : IndexedDf :=
  (newIndexedBase existingDf newDf ts).addMissingColumns
    (existingIndexed existingDf newDf ts).cols

/-- Embeds `GoogleSheetsClient._merge_existing` (google_sheets.py lines
548-591): select key columns (bailing out to the incoming frame when there are
none), build the two aligned indexed frames, then
`existing.combine_first(new)`, `merged.update(new)`, `merged.reset_index()`. -/
def merge_existing (existingDf newDf : Df) (timestampColumn : String) : Df :=
  if (selectKeyColumns newDf.cols timestampColumn).isEmpty then newDf
  else
    ((combineFirst (existingIndexed existingDf newDf timestampColumn)
        (newIndexed existingDf newDf timestampColumn)).updateWith
      (newIndexed existingDf newDf timestampColumn)).resetIndex

/-- Embeds `GoogleSheetsClient._align_columns` (google_sheets.py lines
605-613): the merged frame's columns first, then any existing-only columns,
reindexed with `na` fill. -/
def align_columns (existingDf newDf : Df) : Df :=
  let desired := newDf.cols ++
    (if existingDf.isEmptyDf then []
     else existingDf.cols.filter (fun c => c ∉ newDf.cols))
  { cols := desired,
    recs := newDf.recs.map (fun r => desired.map (fun c => (c, r.get c))) }

/-- `pd.to_datetime(cell, errors="coerce")` as the publish-time sort key:
offset-aware ISO-8601 strings give an instant, everything else `NaT`. -/
def publishSortKey (v : Value) : Option Int :=
  match v with
  | .str s => parseAwareDateTime s
  | _ => none

/-- Ascending order on sort keys with `NaT` first (`na_position="first"`). -/
def publishKeyLt (a b : Option Int) : Bool :=
  match a, b with
  | none, none => false
  | none, some _ => true
  | some _, none => false
  | some x, some y => decide (x < y)

/-- Embeds `GoogleSheetsClient._sort_by_publish_time` (google_sheets.py lines
615-627). -/
def sort_by_publish_time (d : Df) (publishColumn : String) : Df :=
  if publishColumn ∈ d.cols then
    let lt := fun r1 r2 => publishKeyLt
      (publishSortKey (Record.get r1 publishColumn))
      (publishSortKey (Record.get r2 publishColumn))
    { d with recs := sortStable lt d.recs }
  else d

/-- One `sheet.batch_update` range write (google_sheets.py line 471):
`A1`-style coordinates plus the written cell grid. -/
structure WriteInstruction where
  startRow : Nat
  startCol : Nat
  endRow : Nat
  endCol : Nat
  values : List (List String)
deriving DecidableEq, Repr

/-- One `_apply_formatting` call (google_sheets.py lines 643-670): text-wrap
plus row-height over `rows_count` data rows starting at `start_row`. -/
structure FormatCall where
  startRow : Nat
  rowsCount : Nat
  columns : Nat
deriving DecidableEq, Repr

/-- Everything `write_posts_metrics` does to the worksheet and the state
store. -/
structure WriteOutcome where
  writes : List WriteInstruction
  formats : List FormatCall
  clearedSheet : Bool
  touchedLastWrite : Bool
deriving DecidableEq, Repr

/-- Embeds `GoogleSheetsClient.write_posts_metrics` (google_sheets.py lines
415-491): stamp, deduplicate, merge into the existing records, align and sort,
stringify, pad up to the previous row count, then issue a single `A1`-anchored
batch write and format the data rows.  `sheet.clear()` is never called. -/
def write_posts_metrics (existingRecords : List Record) (rows : List Record)
    (now : String) (timestampColumn : String) : WriteOutcome :=
  let df0 := dfFromRecords rows
  if df0.isEmptyDf then
    { writes := [], formats := [], clearedSheet := false, touchedLastWrite := true }
  else
    let df1 := df0.setColumn timestampColumn (.str now)
    let df2 := deduplicate df1 timestampColumn
    let existingDf := dfFromRecords existingRecords
    let mergedDf :=
      if !existingDf.isEmptyDf then merge_existing existingDf df2 timestampColumn
      else df2
    let alignedDf := align_columns existingDf mergedDf
    let sortedDf := sort_by_publish_time alignedDf PUBLISH_TIME_COLUMN
    let columns := sortedDf.cols
    let finalValues := sortedDf.recs.map
      (fun r => columns.map (fun c => stringify_value (Record.get r c)))
    let totalRows := max existingDf.recs.length finalValues.length
    let padded := finalValues ++
      List.replicate (totalRows - finalValues.length) (List.replicate columns.length "")
    let allValues := columns :: padded
    { writes := [{ startRow := 1, startCol := 1, endRow := allValues.length,
                   endCol := columns.length, values := allValues }],
      formats :=
        if finalValues.length > 0 then
          [{ startRow := 2, rowsCount := finalValues.length, columns := columns.length }]
        else [],
      clearedSheet := false,
      touchedLastWrite := true }

/-- `sheet.get_all_records()` over a written grid: the header row zipped with
each data row (the worksheet holds display strings). -/
def gridRecords (values : List (List String)) : List Record :=
  match values with
  | [] => []
  | header :: dataRows => dataRows.map (fun row => header.zip (row.map Value.str))

/-- The grid the batch write of `write_posts_metrics` leaves on the sheet
(empty when nothing was written). -/
def writtenGrid (o : WriteOutcome) : List (List String) :=
  match o.writes with
  | [w] => w.values
  | _ => []

/-! ## Theorems for the spec claims -/

/-- C9: `should_refresh_post_metrics(id, ttl, now)` returns true iff no prior
timestamp is stored for the post or `now - last ≥ ttl`, and returns false
whenever `0 ≤ now - last < ttl` (instants in seconds, the TTL converted from
minutes). -/
theorem c9_should_refresh_ttl (postTimestamps : List (String × Int))
    (postId : String) (ttlMinutes now : Int) :
    (should_refresh_post_metrics postTimestamps postId ttlMinutes now = true ↔
      (alookup postTimestamps postId = none ∨
        ∃ last, alookup postTimestamps postId = some last ∧
          now - last ≥ ttlMinutes * 60)) ∧
    (∀ last, alookup postTimestamps postId = some last →
      0 ≤ now - last → now - last < ttlMinutes * 60 →
      should_refresh_post_metrics postTimestamps postId ttlMinutes now = false) := by
  unfold should_refresh_post_metrics
  cases h : alookup postTimestamps postId with
  | none => simp
  | some last =>
      refine ⟨?_, ?_⟩
      · simp only [decide_eq_true_eq]
        constructor
        · intro hge
          exact Or.inr ⟨last, rfl, hge⟩
        · rintro (hnone | ⟨last2, hl2, hge⟩)
          · exact absurd hnone (by simp)
          · cases Option.some.inj hl2
            exact hge
      · intro last2 hl2 _h0 hlt
        cases Option.some.inj hl2
        simpa using not_le.mpr hlt

/-- Witness for C9 at a stored timestamp: with `last = 1000` and a 2-minute
TTL, a 60-second-old entry is fresh and a 120-second-old entry is due. -/
theorem c9_should_refresh_ttl_witness :
    should_refresh_post_metrics [("123", 1000)] "123" 2 1060 = false ∧
    should_refresh_post_metrics [("123", 1000)] "123" 2 1120 = true := by
  refine ⟨?_, ?_⟩
  · exact (c9_should_refresh_ttl [("123", 1000)] "123" 2 1060).2 1000
      (by decide) (by decide) (by decide)
  · exact (c9_should_refresh_ttl [("123", 1000)] "123" 2 1120).1.mpr
      (Or.inr ⟨1000, by decide, by decide⟩)

/-- C3: `try_acquire_run_lock(max_age)` returns true and records the lock when
no lock is held or when the held lock's age exceeds `max_age` (the stale lock
is overwritten with the current time); it returns false and leaves the state
unchanged otherwise; `release_run_lock` clears the lock unconditionally. -/
theorem c3_run_lock_protocol (st : RunLockState) (maxAge now : Int) :
    (st.run_started_at = none →
      try_acquire_run_lock st maxAge now = (true, ⟨some now⟩)) ∧
    (∀ startedAt, st.run_started_at = some startedAt →
      now - startedAt > maxAge →
      try_acquire_run_lock st maxAge now = (true, ⟨some now⟩)) ∧
    (∀ startedAt, st.run_started_at = some startedAt →
      ¬(now - startedAt > maxAge) →
      try_acquire_run_lock st maxAge now = (false, st)) ∧
    release_run_lock st = ⟨none⟩ := by
  unfold try_acquire_run_lock release_run_lock
  refine ⟨?_, ?_, ?_, rfl⟩
  · intro h
    rw [h]
  · intro startedAt h hstale
    rw [h]
    simp [hstale]
  · intro startedAt h hfresh
    rw [h]
    simp [hfresh]

/-- Witness for C3, the spec's scenario: an existing lock timestamped 1 hour
ago with `max_age` of 10 minutes is reclaimed (returns true), and releasing
clears it. -/
theorem c3_run_lock_protocol_witness :
    try_acquire_run_lock ⟨some 0⟩ 600 3600 = (true, ⟨some 3600⟩) ∧
    release_run_lock ⟨some 3600⟩ = ⟨none⟩ := by
  refine ⟨?_, (c3_run_lock_protocol ⟨some 3600⟩ 600 3600).2.2.2⟩
  exact (c3_run_lock_protocol ⟨some 0⟩ 600 3600).2.1 0 rfl (by decide)

/-- C4: for every 403 response whose body contains the platform rate-limit
phrase, the wait is chosen by strict priority — the parsed `Retry-After`
header value when available; otherwise the estimated-time-to-regain-access
found by recursive search of the usage-quota header's JSON; otherwise the
fallback `10 × 2^(attempt−1)` seconds. -/
theorem c4_rate_limit_wait_priority (attempt : Nat) (resp : HttpResponse)
    (hstatus : resp.statusCode = 403)
    (hbody : containsSubstring resp.bodyText RATE_LIMIT_ERROR_FRAGMENT = true) :
    (∀ w, retryAfterWait resp.headers = some w →
      (resolve_wait_for_status_error attempt resp).1 = w) ∧
    (retryAfterWait resp.headers = none →
      ∀ w, businessUsageWait resp.headers = some w →
        (resolve_wait_for_status_error attempt resp).1 = w) ∧
    (retryAfterWait resp.headers = none →
      businessUsageWait resp.headers = none →
      (resolve_wait_for_status_error attempt resp).1 =
        10 * (2 : Rat) ^ (attempt - 1)) := by
  refine ⟨?_, ?_, ?_⟩
  · intro w hra
    simp [resolve_wait_for_status_error, extract_rate_limit_wait, hstatus, hbody, hra]
  · intro hra w hbu
    simp [resolve_wait_for_status_error, extract_rate_limit_wait, hstatus, hbody, hra, hbu]
  · intro hra hbu
    simp [resolve_wait_for_status_error, extract_rate_limit_wait, hstatus, hbody, hra,
      hbu, compute_rate_limit_wait]

/-- Witness for C4, the spec's scenario: a rate-limited 403 with header
`Retry-After: 12` waits 12 seconds, not the 10-second fallback. -/
theorem c4_rate_limit_wait_priority_witness :
    retryAfterWait ⟨some "12", none⟩ = some 12 ∧
    (resolve_wait_for_status_error 1
      ⟨403, RATE_LIMIT_ERROR_FRAGMENT, ⟨some "12", none⟩⟩).1 = 12 ∧
    (12 : Rat) ≠ 10 * (2 : Rat) ^ (1 - 1) := by
  refine ⟨by decide, ?_, by norm_num⟩
  exact (c4_rate_limit_wait_priority 1
    ⟨403, RATE_LIMIT_ERROR_FRAGMENT, ⟨some "12", none⟩⟩ rfl (by decide)).1 12 (by decide)

/-- Looking a key up right after the dict assignment `d[key] = v` yields
`v`. -/
theorem alookup_setKey {α : Type} (l : List (String × α)) (k : String) (v : α) :
    alookup (setKey l k v) k = some v := by
  unfold alookup setKey removeKey
  induction l with
  | nil => simp
  | cons p rest ih =>
      by_cases h : p.1 = k
      · simpa [h] using ih
      · simpa [List.filter_cons, h, List.lookup, show ¬(k == p.1) = true by
          simpa [beq_iff_eq] using fun hk => h hk.symm] using ih

/-- C2 (amended): a transient failure — a non-rate-limit HTTP status error or
a network-level error — on attempt `n` with `1 ≤ n < 5` makes the client wait
exactly `5 × 3^(n−1)` seconds before retrying, but it also schedules a
per-account cooldown expiring at the end of that wait, so a concurrent or
subsequent request for the same account is delayed by it rather than
unaffected. -/
theorem c2_transient_backoff_sets_cooldown (st : ClientState) (account : String)
    (n : Nat) (outcome : AttemptOutcome)
    (h5 : n < 5) (ht : isTransientFailure outcome = true) :
    (request_attempt st (some account) n outcome).action =
      .retry (5 * (3 : Rat) ^ (n - 1)) ∧
    alookup (request_attempt st (some account) n outcome).state.cooldowns account =
      some ((respect_account_cooldown st (some account)).2.now +
        5 * (3 : Rat) ^ (n - 1)) := by
  have hpos : (0 : Rat) < 5 * (3 : Rat) ^ (n - 1) := by positivity
  have hmax : ¬(n ≥ MAX_ATTEMPTS) := by
    simpa [MAX_ATTEMPTS] using h5
  cases outcome with
  | success => simp [isTransientFailure] at ht
  | networkError =>
      simp only [request_attempt]
      rw [if_neg hmax]
      refine ⟨rfl, ?_⟩
      simp only [retry_backoff_step, schedule_account_cooldown,
        compute_default_wait, if_neg (not_le.mpr hpos)]
      exact alookup_setKey _ _ _
  | statusError resp =>
      have hcond : ¬(resp.statusCode = 403 ∧
          containsSubstring resp.bodyText RATE_LIMIT_ERROR_FRAGMENT = true) := by
        rintro ⟨hs, hb⟩
        simp [isTransientFailure, hs, hb] at ht
      have hres : (resolve_wait_for_status_error n resp).1 =
          5 * (3 : Rat) ^ (n - 1) := by
        simp [resolve_wait_for_status_error, hcond, compute_default_wait]
      simp only [request_attempt]
      rw [if_neg hmax, hres]
      refine ⟨rfl, ?_⟩
      simp only [retry_backoff_step, schedule_account_cooldown,
        if_neg (not_le.mpr hpos)]
      exact alookup_setKey _ _ _

/-- Witness for C2 (amended) at attempt 2 of a network error: a 15-second
backoff, with the cooldown deadline recorded. -/
theorem c2_transient_backoff_sets_cooldown_witness :
    (request_attempt ⟨[], 0⟩ (some "acc") 2 .networkError).action =
      .retry (5 * (3 : Rat) ^ (2 - 1)) ∧
    alookup (request_attempt ⟨[], 0⟩ (some "acc") 2 .networkError).state.cooldowns
        "acc" =
      some ((respect_account_cooldown ⟨[], 0⟩ (some "acc")).2.now +
        5 * (3 : Rat) ^ (2 - 1)) :=
  c2_transient_backoff_sets_cooldown ⟨[], 0⟩ "acc" 2 .networkError
    (by decide) rfl

/-- C2 counterexample: a network-level failure of attempt 1 at time 0 leaves a
scheduled 5-second cooldown for the account — contradicting "no per-account
cooldown is set by such a failure" — and a concurrent request for the same
account issued while the failing one sleeps is delayed those 5 seconds by
`_respect_account_cooldown`. -/
theorem c2_transient_cooldown_counterexample :
    (request_attempt ⟨[], 0⟩ (some "acc") 1 .networkError).state.cooldowns =
      [("acc", 5)] ∧
    (respect_account_cooldown ⟨[("acc", 5)], 0⟩ (some "acc")).1 = 5 := by
  have hw : compute_default_wait 1 = 5 := by norm_num [compute_default_wait]
  have hpos : ¬((5 : Rat) ≤ 0) := by norm_num
  refine ⟨?_, ?_⟩
  · simp only [request_attempt, MAX_ATTEMPTS, retry_backoff_step,
      respect_account_cooldown, alookup, hw]
    norm_num [schedule_account_cooldown, hpos, setKey, removeKey, List.lookup]
  · simp only [respect_account_cooldown, alookup, List.lookup]
    norm_num

/-- C8: for every post with a non-empty id, the aggregated row prefers insight
values: when an insight set exists for the stringified id, likes/replies/
reposts equal the insight values, falling back to the post's native counters
(defaulted to 0) only when the corresponding insight field is absent, and
views/quotes/shares mirror the insight lookups; when no insight set exists,
views/quotes/shares are null and likes/replies/reposts come from the native
counters defaulted to 0.  The row is the post's contribution to
`aggregate_posts`. -/
theorem c8_insight_precedence (post : RawPost) (postId : String)
    (insights : List (String × List (String × Int)))
    (hid : post.id = some postId) (hne : postId ≠ "") :
    (∀ ins, alookup insights postId = some ins →
      Record.get (aggregate_post_row post postId insights) "views" =
        optIntValue (List.lookup "views" ins) ∧
      Record.get (aggregate_post_row post postId insights) "quotes" =
        optIntValue (List.lookup "quotes" ins) ∧
      Record.get (aggregate_post_row post postId insights) "shares" =
        optIntValue (List.lookup "shares" ins) ∧
      Record.get (aggregate_post_row post postId insights) "likes" =
        .int ((List.lookup "likes" ins).getD (post.like_count.getD 0)) ∧
      Record.get (aggregate_post_row post postId insights) "replies" =
        .int ((List.lookup "replies" ins).getD (post.reply_count.getD 0)) ∧
      Record.get (aggregate_post_row post postId insights) "reposts" =
        .int ((List.lookup "reposts" ins).getD (post.repost_count.getD 0))) ∧
    (alookup insights postId = none →
      Record.get (aggregate_post_row post postId insights) "views" = .na ∧
      Record.get (aggregate_post_row post postId insights) "quotes" = .na ∧
      Record.get (aggregate_post_row post postId insights) "shares" = .na ∧
      Record.get (aggregate_post_row post postId insights) "likes" =
        .int (post.like_count.getD 0) ∧
      Record.get (aggregate_post_row post postId insights) "replies" =
        .int (post.reply_count.getD 0) ∧
      Record.get (aggregate_post_row post postId insights) "reposts" =
        .int (post.repost_count.getD 0)) ∧
    (∀ posts, post ∈ posts →
      aggregate_post_row post postId insights ∈ aggregate_posts posts insights) := by
  refine ⟨?_, ?_, ?_⟩
  · intro ins hins
    simp [aggregate_post_row, Record.get, List.lookup, hins, PUBLISH_TIME_COLUMN]
  · intro hins
    simp [aggregate_post_row, Record.get, List.lookup, hins, PUBLISH_TIME_COLUMN]
  · intro posts hmem
    simp only [aggregate_posts, List.mem_filterMap]
    refine ⟨post, hmem, ?_⟩
    simp [truthyOptStr, hid, hne]

/-- Witness for C8, the spec's scenario: aggregating `{id:"2", like_count:5}`
with no matching insight entry yields a row with `views = null` and
`likes = 5`. -/
theorem c8_insight_precedence_witness :
    Record.get (aggregate_post_row
      { id := some "2", like_count := some 5 } "2" []) "views" = .na ∧
    Record.get (aggregate_post_row
      { id := some "2", like_count := some 5 } "2" []) "likes" = .int 5 := by
  have h := (c8_insight_precedence { id := some "2", like_count := some 5 }
    "2" [] rfl (by decide)).2.1 rfl
  exact ⟨h.1, by simpa using h.2.2.2.1⟩

/-- The posts one account contributes to the result of `collect_posts`. -/
def accountContribution (token : AccountToken) (outcome : FetchOutcome) :
    List Record :=
  match collect_for_account token outcome with
  | .ok (posts, _) => posts
  | .error _ => []

/-- C5 (amended): a per-account fetch failure raising `httpx.HTTPStatusError`
or the exhausted-retries `ThreadsAPIError` is isolated — that account yields
zero posts and `collect_posts` still returns the other accounts' posts in
order — but a network-level `httpx.HTTPError` (which `_request` re-raises on
its final attempt and the `except` clause does not name) propagates out of
`collect_posts` and aborts the run. -/
theorem c5_failure_isolation (tokens : List AccountToken)
    (outcomes : AccountToken → FetchOutcome) :
    ((∀ t ∈ tokens, outcomes t ≠ .networkError) →
      collect_posts tokens outcomes =
        .ok (tokens.flatMap (fun t => accountContribution t (outcomes t)))) ∧
    (∀ t, outcomes t = .statusError ∨ outcomes t = .clientError →
      accountContribution t (outcomes t) = []) ∧
    ((∃ t ∈ tokens, outcomes t = .networkError) →
      collect_posts tokens outcomes = .error ()) := by
  refine ⟨?_, ?_, ?_⟩
  · intro hok
    induction tokens with
    | nil => simp [collect_posts]
    | cons t rest ih =>
        have hne := hok t (by simp)
        have hrest := ih (fun t2 ht2 => hok t2 (by simp [ht2]))
        cases hoc : outcomes t with
        | ok posts nextCursor =>
            simp [collect_posts, collect_for_account, hoc, hrest,
              accountContribution]
        | statusError =>
            simp [collect_posts, collect_for_account, hoc, hrest,
              accountContribution]
        | clientError =>
            simp [collect_posts, collect_for_account, hoc, hrest,
              accountContribution]
        | networkError => exact absurd hoc hne
  · intro t ht
    rcases ht with h | h <;> simp [accountContribution, collect_for_account, h]
  · rintro ⟨t, hmem, hnet⟩
    induction tokens with
    | nil => simp at hmem
    | cons t2 rest ih =>
        rcases List.mem_cons.mp hmem with h | h
        · subst h
          simp [collect_posts, collect_for_account, hnet]
        · have := ih h
          cases hoc : outcomes t2 with
          | ok posts nextCursor => simp [collect_posts, collect_for_account, hoc, this]
          | statusError => simp [collect_posts, collect_for_account, hoc, this]
          | clientError => simp [collect_posts, collect_for_account, hoc, this]
          | networkError => simp [collect_posts, collect_for_account, hoc]

/-- Witness for C5 (amended): one account failing with an HTTP status error
and one succeeding — the failed account contributes zero posts and the run
proceeds with the successful account's post. -/
theorem c5_failure_isolation_witness :
    collect_posts
      [⟨"error_account", "token-error"⟩, ⟨"ok_account", "token-ok"⟩]
      (fun t => if t.token = "token-error" then .statusError
        else .ok [⟨"42", "/p/42", [("id", .str "42"), ("text", .str "hello")]⟩]
          (some "next-cursor")) =
      .ok [[("id", Value.str "42"), ("text", Value.str "hello"),
            ("permalink", Value.str "/p/42"),
            ("account_name", Value.str "ok_account")]] := by
  have h := (c5_failure_isolation
    [⟨"error_account", "token-error"⟩, ⟨"ok_account", "token-ok"⟩]
    (fun t => if t.token = "token-error" then .statusError
      else .ok [⟨"42", "/p/42", [("id", .str "42"), ("text", .str "hello")]⟩]
        (some "next-cursor"))).1 ?_
  · rw [h]
    rfl
  · intro t ht
    by_cases hc : t.token = "token-error" <;> simp [hc]

/-- C5 counterexample: a single account whose fetch fails with a network-level
error makes `collect_posts` itself fail instead of yielding zero posts for the
account and continuing. -/
theorem c5_network_error_counterexample :
    collect_posts [⟨"acct", "token"⟩] (fun _ => .networkError) = .error () := rfl

/-- C10: a credential row is excluded — even with both a token and an account
present — whenever its first-column background colour resolves
case-insensitively to `#9fc5e8`; an unmarked row contributes an `AccountToken`
exactly when both fields are present. -/
theorem c10_color_marked_rows_excluded (backgroundColors : List (Nat × String))
    (idx : Nat) (row : List (String × String))
    (rest : List (List (String × String))) :
    (rowColorMarked (rowBackgroundColor backgroundColors idx) = true →
      read_account_rows backgroundColors idx (row :: rest) =
        read_account_rows backgroundColors (idx + 1) rest) ∧
    (rowColorMarked (rowBackgroundColor backgroundColors idx) = false →
      (∀ t a, rowToken row = some t → rowAccount row = some a →
        read_account_rows backgroundColors idx (row :: rest) =
          ⟨a, t⟩ :: read_account_rows backgroundColors (idx + 1) rest) ∧
      ((rowToken row = none ∨ rowAccount row = none) →
        read_account_rows backgroundColors idx (row :: rest) =
          read_account_rows backgroundColors (idx + 1) rest)) := by
  refine ⟨?_, ?_⟩
  · intro hmark
    simp [read_account_rows, hmark]
  · intro hmark
    refine ⟨?_, ?_⟩
    · intro t a htok hacc
      simp [read_account_rows, hmark, htok, hacc]
    · rintro (h | h)
      · simp [read_account_rows, hmark, h]
      · cases htok : rowToken row <;>
          simp [read_account_rows, hmark, htok, h]

/-- Witness for C10: a row carrying both fields but painted `#9FC5E8`
(uppercase) is excluded, so no token is returned. -/
theorem c10_color_marked_rows_excluded_witness :
    rowColorMarked (rowBackgroundColor [(2, "#9FC5E8")] 2) = true ∧
    read_account_tokens [[("Token", "tok"), ("Account", "acc")]]
      [(2, "#9FC5E8")] = [] := by
  have h := (c10_color_marked_rows_excluded [(2, "#9FC5E8")] 2
    [("Token", "tok"), ("Account", "acc")] []).1 (by decide)
  exact ⟨by decide, by simpa [read_account_tokens, read_account_rows] using h⟩

/-! ## Supporting lemmas about the merge engine -/

/-- `insertStable` only rearranges: the result is a permutation of the
element-plus-list. -/
theorem insertStable_perm {α : Type} (lt : α → α → Bool) (x : α) (l : List α) :
    List.Perm (insertStable lt x l) (x :: l) := by
  induction l with
  | nil => rfl
  | cons y ys ih =>
      by_cases h : lt y x = true
      · simpa [insertStable, h] using
          ((ih.cons y).trans (List.Perm.swap x y ys))
      · simp [insertStable, h]

/-- `sortStable` permutes its input. -/
theorem sortStable_perm {α : Type} (lt : α → α → Bool) (l : List α) :
    List.Perm (sortStable lt l) l := by
  induction l with
  | nil => rfl
  | cons x xs ih =>
      exact (insertStable_perm lt x (sortStable lt xs)).trans (ih.cons x)

/-- `sortStable` preserves length. -/
theorem sortStable_length {α : Type} (lt : α → α → Bool) (l : List α) :
    (sortStable lt l).length = l.length :=
  (sortStable_perm lt l).length_eq

/-- `sortStable` preserves distinctness. -/
theorem sortStable_nodup {α : Type} (lt : α → α → Bool) (l : List α)
    (h : l.Nodup) : (sortStable lt l).Nodup :=
  (sortStable_perm lt l).nodup_iff.mpr h

/-- `drop_duplicates(keep="last")` returns a sublist of its input. -/
theorem dropDupKeepLast_sublist (keyColumns : List String) (l : List Record) :
    List.Sublist (dropDupKeepLast keyColumns l) l := by
  induction l with
  | nil => simp [dropDupKeepLast]
  | cons r rest ih =>
      by_cases h : rest.any (fun r2 => keyOf keyColumns r2 = keyOf keyColumns r)
      · simp only [dropDupKeepLast, if_pos h]
        exact ih.cons r
      · simp only [dropDupKeepLast, if_neg h]
        exact ih.cons₂ r

/-- `drop_duplicates(keep="last")` keeps something when fed something. -/
theorem dropDupKeepLast_ne_nil (keyColumns : List String) (l : List Record)
    (h : l ≠ []) : dropDupKeepLast keyColumns l ≠ [] := by
  induction l with
  | nil => exact absurd rfl h
  | cons r rest ih =>
      by_cases hany : rest.any (fun r2 => keyOf keyColumns r2 = keyOf keyColumns r)
      · have hrest : rest ≠ [] := by
          rcases List.any_eq_true.mp hany with ⟨r2, hr2, _⟩
          exact List.ne_nil_of_mem hr2
        simpa [dropDupKeepLast, hany] using ih hrest
      · simp [dropDupKeepLast, hany]

/-- After `drop_duplicates(keep="last")` the key tuples are distinct. -/
theorem dropDupKeepLast_keys_nodup (keyColumns : List String) (l : List Record) :
    ((dropDupKeepLast keyColumns l).map (keyOf keyColumns)).Nodup := by
  induction l with
  | nil => simp [dropDupKeepLast]
  | cons r rest ih =>
      by_cases h : rest.any (fun r2 => keyOf keyColumns r2 = keyOf keyColumns r)
      · simpa [dropDupKeepLast, h] using ih
      · have hnot : ∀ r2 ∈ rest, ¬(keyOf keyColumns r2 = keyOf keyColumns r) := by
          intro r2 hr2
          exact fun he => h (List.any_eq_true.mpr ⟨r2, hr2, decide_eq_true he⟩)
        simp only [dropDupKeepLast, if_neg h, List.map_cons, List.nodup_cons]
        refine ⟨?_, ih⟩
        intro hmem
        rcases List.mem_map.mp hmem with ⟨r2, hr2, he⟩
        exact hnot r2 ((dropDupKeepLast_sublist keyColumns rest).subset hr2) he

/-- Members of `indexUnion` come from one of the operands. -/
theorem indexUnion_mem (a b : List (List Value)) (k : List Value)
    (h : k ∈ indexUnion a b) : k ∈ a ∨ k ∈ b := by
  unfold indexUnion at h
  by_cases hab : a = b
  · rw [if_pos hab] at h
    exact Or.inl h
  · rw [if_neg hab] at h
    have := (sortStable_perm keyListLt ((a ++ b).dedup)).mem_iff.mp h
    rcases List.mem_append.mp (List.mem_dedup.mp this) with h2 | h2
    · exact Or.inl h2
    · exact Or.inr h2

/-- `indexUnion` yields distinct labels when its left operand has them. -/
theorem indexUnion_nodup (a b : List (List Value)) (ha : a.Nodup) :
    (indexUnion a b).Nodup := by
  unfold indexUnion
  by_cases hab : a = b
  · rwa [if_pos hab]
  · rw [if_neg hab]
    exact sortStable_nodup _ _ (List.nodup_dedup _)

/-- `indexUnion` is nonempty when the right operand is. -/
theorem indexUnion_ne_nil (a b : List (List Value)) (hb : b ≠ []) :
    indexUnion a b ≠ [] := by
  rcases List.exists_mem_of_ne_nil b hb with ⟨k, hk⟩
  unfold indexUnion
  by_cases hab : a = b
  · rw [if_pos hab]
    subst hab
    exact List.ne_nil_of_mem hk
  · rw [if_neg hab]
    have : k ∈ sortStable keyListLt ((a ++ b).dedup) :=
      (sortStable_perm keyListLt _).mem_iff.mpr
        (List.mem_dedup.mpr (List.mem_append.mpr (Or.inr hk)))
    exact List.ne_nil_of_mem this

/-- Looking up the overwritten key of `Record.set`. -/
theorem lookup_set_self (r : Record) (c : String) (v : Value) :
    List.lookup c (Record.set r c v) = some v := by
  unfold Record.set
  by_cases hs : (List.lookup c r).isSome
  · rw [if_pos hs]
    induction r with
    | nil => simp [List.lookup] at hs
    | cons p rest ih =>
        rw [List.map_cons]
        cases hp : (p.1 == c) with
        | true =>
            rw [if_pos rfl]
            simp [List.lookup]
        | false =>
            rw [if_neg Bool.false_ne_true]
            have hcp : (c == p.1) = false := by
              rw [beq_eq_false_iff_ne] at hp ⊢
              exact fun hk => hp hk.symm
            simp only [List.lookup, hcp] at hs
            simp only [List.lookup, hcp]
            exact ih hs
  · rw [if_neg hs]
    induction r with
    | nil => simp [List.lookup]
    | cons p rest ih =>
        have hb : (c == p.1) = false := by
          cases hb2 : (c == p.1) with
          | true => simp [List.lookup, hb2] at hs
          | false => rfl
        simp only [List.lookup, hb] at hs
        simp only [List.cons_append, List.lookup, hb]
        exact ih hs

/-- Looking up any other key of `Record.set`. -/
theorem lookup_set_other (r : Record) (c c2 : String) (v : Value)
    (h : c2 ≠ c) : List.lookup c2 (Record.set r c v) = List.lookup c2 r := by
  unfold Record.set
  have hbc : (c2 == c) = false := beq_eq_false_iff_ne.mpr h
  by_cases hs : (List.lookup c r).isSome
  · rw [if_pos hs]
    clear hs
    induction r with
    | nil => simp
    | cons p rest ih =>
        rw [List.map_cons]
        cases hp : (p.1 == c) with
        | true =>
            rw [if_pos rfl]
            have hb : (c2 == p.1) = false := by
              rw [beq_iff_eq] at hp
              rw [hp]
              exact hbc
            simp only [List.lookup, hb, hbc]
            exact ih
        | false =>
            rw [if_neg Bool.false_ne_true]
            cases hb : (c2 == p.1) with
            | true => simp [List.lookup, hb]
            | false =>
                simp only [List.lookup, hb]
                exact ih
  · rw [if_neg hs]
    induction r with
    | nil => simp [List.lookup, hbc]
    | cons p rest ih =>
        have hrest : ¬(List.lookup c rest).isSome = true := by
          intro hk
          cases hb2 : (c == p.1) with
          | true => simp [List.lookup, hb2] at hs
          | false => simp [List.lookup, hb2, hk] at hs
        cases hb : (c2 == p.1) with
        | true => simp [List.lookup, hb]
        | false =>
            simp only [List.cons_append, List.lookup, hb]
            exact ih hrest

/-- Reading a column right after writing it. -/
theorem Record.get_set_self (r : Record) (c : String) (v : Value) :
    Record.get (r.set c v) c = v := by
  unfold Record.get
  rw [lookup_set_self]

/-- Writing one column leaves the others unchanged. -/
theorem Record.get_set_other (r : Record) (c c2 : String) (v : Value)
    (h : c2 ≠ c) : Record.get (r.set c v) c2 = Record.get r c2 := by
  unfold Record.get
  rw [lookup_set_other r c c2 v h]

/-- `dropWhile` is the identity when the head already fails the predicate. -/
theorem dropWhile_eq_self_of_head {α : Type} (p : α → Bool) (l : List α)
    (h : ∀ hne : l ≠ [], p (l.head hne) = false) : l.dropWhile p = l := by
  cases l with
  | nil => rfl
  | cons x xs =>
      have hx := h (by simp)
      simp only [List.head_cons] at hx
      simp [List.dropWhile_cons, hx]

/-- Stripping whitespace twice is stripping once. -/
theorem trimChars_idem (l : List Char) :
    trimChars (trimChars l) = trimChars l := by
  unfold trimChars
  have hBhead : ∀ hne : (l.dropWhile Char.isWhitespace).reverse.dropWhile
        Char.isWhitespace ≠ [],
      Char.isWhitespace (((l.dropWhile Char.isWhitespace).reverse.dropWhile
        Char.isWhitespace).head hne) = false := by
    intro hne
    exact List.head_dropWhile_not _ _ hne
  have hArevHead : ∀ hne : ((l.dropWhile Char.isWhitespace).reverse.dropWhile
        Char.isWhitespace).reverse ≠ [],
      Char.isWhitespace ((((l.dropWhile Char.isWhitespace).reverse.dropWhile
        Char.isWhitespace).reverse).head hne) = false := by
    intro hne
    have hsuf : List.IsSuffix ((l.dropWhile Char.isWhitespace).reverse.dropWhile
        Char.isWhitespace) (l.dropWhile Char.isWhitespace).reverse :=
      List.dropWhile_suffix _
    have hpre : List.IsPrefix (((l.dropWhile Char.isWhitespace).reverse.dropWhile
        Char.isWhitespace).reverse) (l.dropWhile Char.isWhitespace) := by
      have := List.reverse_prefix.mpr hsuf
      simpa using this
    have hAne : l.dropWhile Char.isWhitespace ≠ [] := by
      intro hnil
      apply hne
      rw [hnil]
      rfl
    rw [hpre.head_eq hne]
    exact List.head_dropWhile_not _ _ hAne
  rw [dropWhile_eq_self_of_head _ _ hArevHead, List.reverse_reverse,
    dropWhile_eq_self_of_head _ _ hBhead]

/-- Python `str.strip()` is idempotent. -/
theorem strip_idem (s : String) : strip (strip s) = strip s := by
  unfold strip
  exact congrArg String.mk (trimChars_idem s.data)

/-- `_normalize_key` is idempotent: normalised key components stay put. -/
theorem normalize_key_idem (v : Value) :
    normalize_key (normalize_key v) = normalize_key v := by
  cases v with
  | na => decide
  | str s =>
      show Value.str (strip (strip s)) = Value.str (strip s)
      rw [strip_idem]
  | int n =>
      show Value.str (strip (strip (toString n))) = Value.str (strip (toString n))
      rw [strip_idem]

/-- The per-record effect of the key-normalisation loop
`for column in key_columns: df[column] = df[column].map(_normalize_key)`. -/
def normalizeRecordKeys (cs : List String) (r : Record) : Record :=
  cs.foldl (fun r2 c => r2.set c (normalize_key (Record.get r2 c))) r

/-- A fold of `mapColumn` acts row-wise. -/
theorem foldl_mapColumn_recs (cs : List String) (d : Df) :
    (cs.foldl (fun df c => df.mapColumn c normalize_key) d).recs =
      d.recs.map (normalizeRecordKeys cs) := by
  induction cs generalizing d with
  | nil =>
      show d.recs = d.recs.map (fun r => r)
      rw [List.map_id']
  | cons c cs' ih =>
      simp only [List.foldl_cons]
      rw [ih]
      simp [Df.mapColumn, normalizeRecordKeys, List.map_map]

/-- Columns outside the loop are untouched. -/
theorem get_normalizeRecordKeys_notmem (cs : List String) (r : Record)
    (c : String) (hc : c ∉ cs) :
    Record.get (normalizeRecordKeys cs r) c = Record.get r c := by
  induction cs generalizing r with
  | nil => rfl
  | cons c0 cs' ih =>
      have hne : c ≠ c0 := fun he => hc (by simp [he])
      have hcs : c ∉ cs' := fun he => hc (by simp [he])
      unfold normalizeRecordKeys
      simp only [List.foldl_cons]
      rw [show (List.foldl (fun r2 c2 => r2.set c2 (normalize_key (Record.get r2 c2)))
        (r.set c0 (normalize_key (Record.get r c0))) cs') =
        normalizeRecordKeys cs' (r.set c0 (normalize_key (Record.get r c0))) from rfl]
      rw [ih _ hcs]
      exact Record.get_set_other _ _ _ _ hne

/-- Every key column of a normalised record holds a `_normalize_key` image. -/
theorem get_normalizeRecordKeys_mem (cs : List String) (r : Record)
    (c : String) (hc : c ∈ cs) :
    ∃ w, Record.get (normalizeRecordKeys cs r) c = normalize_key w := by
  induction cs generalizing r with
  | nil => simp at hc
  | cons c0 cs' ih =>
      unfold normalizeRecordKeys
      simp only [List.foldl_cons]
      rw [show (List.foldl (fun r2 c2 => r2.set c2 (normalize_key (Record.get r2 c2)))
        (r.set c0 (normalize_key (Record.get r c0))) cs') =
        normalizeRecordKeys cs' (r.set c0 (normalize_key (Record.get r c0))) from rfl]
      by_cases hcs : c ∈ cs'
      · exact ih _ hcs
      · have hce : c = c0 := by
          rcases List.mem_cons.mp hc with h | h
          · exact h
          · exact absurd h hcs
        subst hce
        rw [get_normalizeRecordKeys_notmem cs' _ c hcs, Record.get_set_self]
        exact ⟨Record.get r c, rfl⟩

/-- Reading the key columns of a `reset_index` row recovers the index tuple:
the zipped key bindings shadow anything behind them. -/
theorem map_get_zip_append (ks : List String) (vs : List Value) (r : Record)
    (hnd : ks.Nodup) (hlen : vs.length = ks.length) :
    ks.map (fun c => Record.get (ks.zip vs ++ r) c) = vs := by
  induction ks generalizing vs with
  | nil =>
      cases vs with
      | nil => rfl
      | cons v vs' => simp at hlen
  | cons c ks' ih =>
      cases vs with
      | nil => simp at hlen
      | cons v vs' =>
          have hnotin : c ∉ ks' := (List.nodup_cons.mp hnd).1
          have hnd' : ks'.Nodup := (List.nodup_cons.mp hnd).2
          have hlen' : vs'.length = ks'.length := by simpa using hlen
          simp only [List.zip_cons_cons, List.cons_append, List.map_cons]
          refine congrArg₂ List.cons ?_ ?_
          · simp [Record.get, List.lookup]
          · have hpt : ∀ c2 ∈ ks',
                Record.get ((c, v) :: (ks'.zip vs' ++ r)) c2 =
                  Record.get (ks'.zip vs' ++ r) c2 := by
              intro c2 hc2
              have hne : (c2 == c) = false :=
                beq_eq_false_iff_ne.mpr (fun he => hnotin (he ▸ hc2))
              simp [Record.get, List.lookup, hne]
            rw [List.map_congr_left hpt]
            exact ih vs' hnd' hlen'

/-- The cell row `combine_first` builds for index label `k`. -/
def combinedRow (e n : IndexedDf) (k : List Value) : Record :=
  (columnsUnion e.cols n.cols).map fun c =>
    let bv := match e.find k with | some r => r.get c | none => Value.na
    let ov := match n.find k with | some r => r.get c | none => Value.na
    (c, if bv ≠ Value.na then bv else ov)

/-- The cell row left at index label `k` after `combine_first` followed by
`update`. -/
def mergeRow (e n : IndexedDf) (k : List Value) : Record :=
  match n.find k with
  | some ro =>
      (combinedRow e n k).map fun cell =>
        (cell.1, if ro.get cell.1 ≠ Value.na then ro.get cell.1 else cell.2)
  | none => combinedRow e n k

/-- The records of `combine_first`-then-`update`-then-`reset_index`, row by
row. -/
theorem merge_core_recs (e n : IndexedDf) :
    ((combineFirst e n).updateWith n).resetIndex.recs =
      (indexUnion (e.rows.map Prod.fst) (n.rows.map Prod.fst)).map
        (fun k => e.keyColumns.zip k ++ mergeRow e n k) := by
  simp only [combineFirst, IndexedDf.updateWith, IndexedDf.resetIndex,
    List.map_map]
  refine List.map_congr_left ?_
  intro k _
  simp only [Function.comp]
  cases hf : n.find k with
  | some ro => simp [mergeRow, combinedRow, hf]
  | none => simp [mergeRow, combinedRow, hf]

/-- The index labels of a `set_index` frame are the key tuples of its
records. -/
theorem setIndex_rows_fst (d : Df) (kc : List String) :
    (d.setIndex kc).rows.map Prod.fst = d.recs.map (keyOf kc) := by
  simp [Df.setIndex, List.map_map]

/-- The index labels of the aligned existing frame. -/
theorem existingIndexed_rows_fst (existingDf newDf : Df) (ts : String) :
    (existingIndexed existingDf newDf ts).rows.map Prod.fst =
      (dropDupKeepLast (selectKeyColumns newDf.cols ts)
        ((ensureKeyColumns (selectKeyColumns newDf.cols ts) existingDf).recs.map
          (normalizeRecordKeys (selectKeyColumns newDf.cols ts)))).map
        (keyOf (selectKeyColumns newDf.cols ts)) := by
  unfold existingIndexed existingIndexedBase IndexedDf.addMissingColumns
  rw [setIndex_rows_fst]
  unfold dropDupFrame normalizeKeyColumns
  rw [foldl_mapColumn_recs]

/-- The index labels of the aligned incoming frame. -/
theorem newIndexed_rows_fst (existingDf newDf : Df) (ts : String) :
    (newIndexed existingDf newDf ts).rows.map Prod.fst =
      (dropDupKeepLast (selectKeyColumns newDf.cols ts)
        (newDf.recs.map (normalizeRecordKeys (selectKeyColumns newDf.cols ts)))).map
        (keyOf (selectKeyColumns newDf.cols ts)) := by
  unfold newIndexed newIndexedBase IndexedDf.addMissingColumns
  rw [setIndex_rows_fst]
  unfold dropDupFrame normalizeKeyColumns
  rw [foldl_mapColumn_recs]

/-- Key tuples of deduplicated normalised records have key-column length and
normalisation-fixed components. -/
theorem dedup_normalized_keys_shape (kc : List String) (recs : List Record)
    (k : List Value)
    (hk : k ∈ (dropDupKeepLast kc (recs.map (normalizeRecordKeys kc))).map (keyOf kc)) :
    k.length = kc.length ∧ ∀ v ∈ k, normalize_key v = v := by
  rcases List.mem_map.mp hk with ⟨r, hr, hkr⟩
  have hr2 : r ∈ recs.map (normalizeRecordKeys kc) :=
    (dropDupKeepLast_sublist kc _).subset hr
  rcases List.mem_map.mp hr2 with ⟨r0, _, hr0⟩
  subst hkr
  subst hr0
  refine ⟨by simp [keyOf], ?_⟩
  intro v hv
  rcases List.mem_map.mp hv with ⟨c, hc, hvc⟩
  rcases get_normalizeRecordKeys_mem kc r0 c hc with ⟨w, hw⟩
  rw [← hvc]
  show normalize_key (Record.get (normalizeRecordKeys kc r0) c) =
    Record.get (normalizeRecordKeys kc r0) c
  rw [hw]
  exact normalize_key_idem w

/-- Key structure of a `_merge_existing` result when key columns are selected:
the rows' key tuples are distinct and every key cell is a fixed point of
`_normalize_key`. -/
theorem merge_existing_keys (existingDf newDf : Df) (ts : String)
    (hkc : ¬(selectKeyColumns newDf.cols ts).isEmpty = true)
    (hnd : (selectKeyColumns newDf.cols ts).Nodup) :
    ((merge_existing existingDf newDf ts).recs.map
      (keyOf (selectKeyColumns newDf.cols ts))).Nodup ∧
    ∀ r ∈ (merge_existing existingDf newDf ts).recs,
      ∀ c ∈ selectKeyColumns newDf.cols ts,
        normalize_key (Record.get r c) = Record.get r c := by
  have hrecs : (merge_existing existingDf newDf ts).recs =
      (indexUnion ((existingIndexed existingDf newDf ts).rows.map Prod.fst)
        ((newIndexed existingDf newDf ts).rows.map Prod.fst)).map
        (fun k => (selectKeyColumns newDf.cols ts).zip k ++
          mergeRow (existingIndexed existingDf newDf ts)
            (newIndexed existingDf newDf ts) k) := by
    unfold merge_existing
    rw [if_neg hkc, merge_core_recs]
    rfl
  have hkeyProps : ∀ k ∈ indexUnion
      ((existingIndexed existingDf newDf ts).rows.map Prod.fst)
      ((newIndexed existingDf newDf ts).rows.map Prod.fst),
      k.length = (selectKeyColumns newDf.cols ts).length ∧
        ∀ v ∈ k, normalize_key v = v := by
    intro k hk
    rcases indexUnion_mem _ _ _ hk with hk2 | hk2
    · rw [existingIndexed_rows_fst] at hk2
      exact dedup_normalized_keys_shape _ _ _ hk2
    · rw [newIndexed_rows_fst] at hk2
      exact dedup_normalized_keys_shape _ _ _ hk2
  have hkeysNodup : (indexUnion
      ((existingIndexed existingDf newDf ts).rows.map Prod.fst)
      ((newIndexed existingDf newDf ts).rows.map Prod.fst)).Nodup := by
    apply indexUnion_nodup
    rw [existingIndexed_rows_fst]
    exact dropDupKeepLast_keys_nodup _ _
  have hroundtrip : ∀ k ∈ indexUnion
      ((existingIndexed existingDf newDf ts).rows.map Prod.fst)
      ((newIndexed existingDf newDf ts).rows.map Prod.fst),
      keyOf (selectKeyColumns newDf.cols ts)
        ((selectKeyColumns newDf.cols ts).zip k ++
          mergeRow (existingIndexed existingDf newDf ts)
            (newIndexed existingDf newDf ts) k) = k := by
    intro k hk
    exact map_get_zip_append _ _ _ hnd (hkeyProps k hk).1
  refine ⟨?_, ?_⟩
  · rw [hrecs, List.map_map]
    have : (indexUnion ((existingIndexed existingDf newDf ts).rows.map Prod.fst)
        ((newIndexed existingDf newDf ts).rows.map Prod.fst)).map
        ((keyOf (selectKeyColumns newDf.cols ts)) ∘
          (fun k => (selectKeyColumns newDf.cols ts).zip k ++
            mergeRow (existingIndexed existingDf newDf ts)
              (newIndexed existingDf newDf ts) k)) =
        (indexUnion ((existingIndexed existingDf newDf ts).rows.map Prod.fst)
          ((newIndexed existingDf newDf ts).rows.map Prod.fst)).map id := by
      refine List.map_congr_left ?_
      intro k hk
      exact hroundtrip k hk
    rw [this, List.map_id]
    exact hkeysNodup
  · intro r hr c hc
    rw [hrecs] at hr
    rcases List.mem_map.mp hr with ⟨k, hk, hkr⟩
    have hcomp : Record.get r c ∈ k := by
      rw [← hroundtrip k hk, hkr]
      exact List.mem_map_of_mem _ hc
    exact (hkeyProps k hk).2 _ hcomp

/-- C7 (amended): for every existing snapshot and every batch of incoming
rows that carries at least one of the `account_name`/`post_id` columns, the
table produced by `_merge_existing` contains no two rows sharing the same
normalised (account_name, post_id) composite key. -/
theorem c7_merge_key_uniqueness (existingDf newDf : Df) (ts : String)
    (hkey : "account_name" ∈ newDf.cols ∨ "post_id" ∈ newDf.cols) :
    (merge_existing existingDf newDf ts).recs.Pairwise (fun r1 r2 =>
      ¬(normalize_key (Record.get r1 "account_name") =
          normalize_key (Record.get r2 "account_name") ∧
        normalize_key (Record.get r1 "post_id") =
          normalize_key (Record.get r2 "post_id"))) := by
  have hmem : ∀ c, (c = "account_name" ∨ c = "post_id") → c ∈ newDf.cols →
      c ∈ ["account_name", "post_id"].filter (fun c => c ∈ newDf.cols) := by
    intro c hcn hc
    refine List.mem_filter.mpr ⟨?_, by simpa using hc⟩
    rcases hcn with h | h <;> simp [h]
  have hfilterne :
      ["account_name", "post_id"].filter (fun c => c ∈ newDf.cols) ≠ [] := by
    rcases hkey with h | h
    · exact List.ne_nil_of_mem (hmem _ (Or.inl rfl) h)
    · exact List.ne_nil_of_mem (hmem _ (Or.inr rfl) h)
  have hkcsel : selectKeyColumns newDf.cols ts =
      ["account_name", "post_id"].filter (fun c => c ∈ newDf.cols) := by
    simp only [selectKeyColumns]
    rw [if_neg (by rw [List.isEmpty_iff]; exact hfilterne)]
  have hkc : ¬(selectKeyColumns newDf.cols ts).isEmpty = true := by
    rw [hkcsel, List.isEmpty_iff]
    exact hfilterne
  have hnd : (selectKeyColumns newDf.cols ts).Nodup := by
    rw [hkcsel]
    exact List.Nodup.filter _ (by decide)
  obtain ⟨hnodup, hnormfix⟩ := merge_existing_keys existingDf newDf ts hkc hnd
  have hpw : (merge_existing existingDf newDf ts).recs.Pairwise
      (fun r1 r2 => keyOf (selectKeyColumns newDf.cols ts) r1 ≠
        keyOf (selectKeyColumns newDf.cols ts) r2) :=
    List.pairwise_map.mp hnodup
  refine hpw.imp_of_mem ?_
  intro r1 r2 h1 h2 hkne hpair
  apply hkne
  unfold keyOf
  refine List.map_congr_left ?_
  intro c hc
  have hc2 : c = "account_name" ∨ c = "post_id" := by
    rw [hkcsel] at hc
    have := (List.mem_filter.mp hc).1
    simpa using this
  have he1 := hnormfix r1 h1 c hc
  have he2 := hnormfix r2 h2 c hc
  rcases hc2 with hc2 | hc2 <;> subst hc2
  · rw [← he1, ← he2, hpair.1]
  · rw [← he1, ← he2, hpair.2]

/-- C7 counterexample: a batch with neither `account_name` nor `post_id`
column is keyed on its other columns, and all merged rows then share the empty
normalised (account_name, post_id) key. -/
theorem c7_merge_key_uniqueness_counterexample :
    ¬ (merge_existing
        (dfFromRecords [[("a", Value.str "1")], [("a", Value.str "2")]])
        (Df.setColumn (dfFromRecords [[("a", Value.str "3")]])
          "updated_at" (Value.str "T"))
        "updated_at").recs.Pairwise (fun r1 r2 =>
      ¬(normalize_key (Record.get r1 "account_name") =
          normalize_key (Record.get r2 "account_name") ∧
        normalize_key (Record.get r1 "post_id") =
          normalize_key (Record.get r2 "post_id"))) := by
  intro h
  have hrecs : (merge_existing
      (dfFromRecords [[("a", Value.str "1")], [("a", Value.str "2")]])
      (Df.setColumn (dfFromRecords [[("a", Value.str "3")]])
        "updated_at" (Value.str "T"))
      "updated_at").recs =
      [[("a", Value.str "1"), ("updated_at", Value.na)],
       [("a", Value.str "2"), ("updated_at", Value.na)],
       [("a", Value.str "3"), ("updated_at", Value.str "T")]] := by decide
  rw [hrecs] at h
  have hone := (List.pairwise_cons.mp h).1
    [("a", Value.str "2"), ("updated_at", Value.na)] (by simp)
  exact hone ⟨by decide, by decide⟩

/-- `_merge_existing` never loses all rows when the incoming frame has some. -/
theorem merge_existing_recs_ne_nil (existingDf newDf : Df) (ts : String)
    (h : newDf.recs ≠ []) : (merge_existing existingDf newDf ts).recs ≠ [] := by
  unfold merge_existing
  by_cases hkc : (selectKeyColumns newDf.cols ts).isEmpty = true
  · rw [if_pos hkc]; exact h
  · rw [if_neg hkc, merge_core_recs]
    intro hnil
    have hu := List.map_eq_nil.mp hnil
    refine indexUnion_ne_nil _ _ ?_ hu
    rw [newIndexed_rows_fst]
    intro hn
    have := List.map_eq_nil.mp hn
    exact dropDupKeepLast_ne_nil _ _
      (fun he => h (List.map_eq_nil.mp he)) this

/-- `_deduplicate` never empties a non-empty frame. -/
theorem deduplicate_recs_ne_nil (d : Df) (ts : String) (h : d.recs ≠ []) :
    (deduplicate d ts).recs ≠ [] := by
  unfold deduplicate
  by_cases hkc : (selectKeyColumns d.cols ts).isEmpty = true
  · rw [if_pos hkc]; exact h
  · rw [if_neg hkc]
    show dropDupKeepLast _ ((selectKeyColumns d.cols ts).foldl
      (fun df c => df.mapColumn c normalize_key) d).recs ≠ []
    rw [foldl_mapColumn_recs]
    exact dropDupKeepLast_ne_nil _ _ (fun he => h (List.map_eq_nil.mp he))

/-- `_align_columns` keeps the row count of the merged frame. -/
theorem align_columns_recs_length (existingDf newDf : Df) :
    (align_columns existingDf newDf).recs.length = newDf.recs.length := by
  simp [align_columns]

/-- `_sort_by_publish_time` keeps the row count. -/
theorem sort_by_publish_time_recs_length (d : Df) (c : String) :
    (sort_by_publish_time d c).recs.length = d.recs.length := by
  unfold sort_by_publish_time
  by_cases hc : c ∈ d.cols
  · rw [if_pos hc]
    exact sortStable_length _ _
  · rw [if_neg hc]

/-- Shape of every non-empty write: `write_posts_metrics` issues exactly one
batch write, anchored at `A1`, spanning a header row plus
`max (existing row count) (merged row count)` data rows, formats every merged
data row, and never clears the sheet. -/
theorem write_posts_metrics_single_write (E R : List Record) (now ts : String)
    (hR : (dfFromRecords R).isEmptyDf = false) :
    ∃ w cnt,
      (write_posts_metrics E R now ts).writes = [w] ∧
      (write_posts_metrics E R now ts).formats =
        [{ startRow := 2, rowsCount := cnt, columns := w.endCol }] ∧
      0 < cnt ∧
      w.startRow = 1 ∧ w.startCol = 1 ∧
      w.endRow = w.values.length ∧
      w.values.length = 1 + max E.length cnt ∧
      (write_posts_metrics E R now ts).clearedSheet = false := by
  simp only [write_posts_metrics, hR, Bool.false_eq_true, if_false]
  set M : Df := (if (!(dfFromRecords E).isEmptyDf) = true then
      merge_existing (dfFromRecords E)
        (deduplicate ((dfFromRecords R).setColumn ts (Value.str now)) ts) ts
    else deduplicate ((dfFromRecords R).setColumn ts (Value.str now)) ts) with hM
  set S : Df := sort_by_publish_time (align_columns (dfFromRecords E) M)
    PUBLISH_TIME_COLUMN with hS
  set F : List (List String) := S.recs.map
    (fun r => S.cols.map (fun c => stringify_value (Record.get r c))) with hF
  have hRne : R ≠ [] := by
    intro hR0
    rw [hR0] at hR
    simp [dfFromRecords, Df.isEmptyDf, dfColsOfRecords] at hR
  have hMne : M.recs ≠ [] := by
    have hd1 : ((dfFromRecords R).setColumn ts (Value.str now)).recs ≠ [] := by
      simp only [Df.setColumn, dfFromRecords]
      exact fun he => hRne (List.map_eq_nil.mp he)
    have hd2 := deduplicate_recs_ne_nil _ ts hd1
    rw [hM]
    by_cases hE : (!(dfFromRecords E).isEmptyDf) = true
    · rw [if_pos hE]
      exact merge_existing_recs_ne_nil _ _ _ hd2
    · rw [if_neg hE]
      exact hd2
  have hpos : 0 < F.length := by
    rw [hF, List.length_map, hS, sort_by_publish_time_recs_length,
      align_columns_recs_length]
    exact List.length_pos.mpr hMne
  refine ⟨_, F.length, rfl, ?_, hpos, rfl, rfl, rfl, ?_, trivial⟩
  · rw [if_pos hpos]
  · simp only [List.length_cons, List.length_append, List.length_replicate]
    have he : (dfFromRecords E).recs = E := rfl
    rw [he]
    omega

/-- A snapshot row keyed ("a","1"): no row of the sample batch matches it. -/
def snapshotRow : Record :=
  [("account_name", Value.str "a"), ("post_id", Value.str "1"),
   ("likes", Value.str "1"), ("updated_at", Value.str "T0")]

/-- A batch row keyed ("a","2"), new relative to `snapshotRow`. -/
def batchRow : Record :=
  [("account_name", Value.str "a"), ("post_id", Value.str "2"),
   ("likes", Value.int 2)]

/-- First of two snapshot rows sharing the key ("a","1"). -/
def duplicateKeyRowA : Record :=
  [("account_name", Value.str "a"), ("post_id", Value.str "1"),
   ("likes", Value.str "1"), ("updated_at", Value.str "T0")]

/-- Second snapshot row with the same key ("a","1"). -/
def duplicateKeyRowB : Record :=
  [("account_name", Value.str "a"), ("post_id", Value.str "1"),
   ("likes", Value.str "2"), ("updated_at", Value.str "T0")]

/-- A batch row whose key collapses the duplicated snapshot rows. -/
def collapsedBatchRow : Record :=
  [("account_name", Value.str "a"), ("post_id", Value.str "1"),
   ("likes", Value.int 3)]

/-- C1 (corrected): instead of targeted per-row updates plus one contiguous
append, `write_posts_metrics` always issues exactly one `A1`-anchored batch
write spanning the header plus `max (existing rows) (merged rows)` data rows —
untouched existing rows included — and applies formatting to every merged data
row; a full-sheet clear is indeed never issued. -/
theorem c1_single_full_range_write (E R : List Record) (now ts : String)
    (hR : (dfFromRecords R).isEmptyDf = false) :
    ∃ w cnt,
      (write_posts_metrics E R now ts).writes = [w] ∧
      (write_posts_metrics E R now ts).formats =
        [{ startRow := 2, rowsCount := cnt, columns := w.endCol }] ∧
      0 < cnt ∧
      w.startRow = 1 ∧ w.startCol = 1 ∧
      w.endRow = w.values.length ∧
      w.values.length = 1 + max E.length cnt ∧
      (write_posts_metrics E R now ts).clearedSheet = false :=
  write_posts_metrics_single_write E R now ts hR

/-- C1 witness: the single-write shape at a concrete snapshot and batch. -/
theorem c1_single_full_range_write_witness :
    (dfFromRecords [batchRow]).isEmptyDf = false ∧
    (∃ w cnt,
      (write_posts_metrics [snapshotRow] [batchRow] "T1" "updated_at").writes = [w] ∧
      (write_posts_metrics [snapshotRow] [batchRow] "T1" "updated_at").formats =
        [{ startRow := 2, rowsCount := cnt, columns := w.endCol }] ∧
      0 < cnt ∧
      w.startRow = 1 ∧ w.startCol = 1 ∧
      w.endRow = w.values.length ∧
      w.values.length = 1 + max [snapshotRow].length cnt ∧
      (write_posts_metrics [snapshotRow] [batchRow] "T1" "updated_at").clearedSheet = false) :=
  ⟨by decide,
   c1_single_full_range_write [snapshotRow] [batchRow] "T1" "updated_at" (by decide)⟩

/-- C1 counterexample: the existing row keyed ("a","1") is untouched by the
batch keyed ("a","2"), yet its cells are re-written inside the single
`A1`-anchored grid, and formatting covers both data rows rather than only the
appended one. -/
theorem c1_targeted_writes_counterexample :
    ["a", "1", "1", "T0"] ∈
      writtenGrid (write_posts_metrics [snapshotRow] [batchRow] "T1" "updated_at") ∧
    (∀ w ∈ (write_posts_metrics [snapshotRow] [batchRow] "T1" "updated_at").writes,
        w.startRow = 1 ∧ w.startCol = 1) ∧
    (write_posts_metrics [snapshotRow] [batchRow] "T1" "updated_at").formats =
      [{ startRow := 2, rowsCount := 2, columns := 4 }] := by decide

/-- C6 (corrected): re-merging the same aggregated row set is not
instruction-free — the second `write_posts_metrics` re-issues exactly as many
batch writes (namely one) as the first call did; on the concrete one-row
scenario the re-written grid is nevertheless identical to the first grid. -/
theorem c6_remerge_reissues_full_write (E R : List Record) (now ts : String)
    (hR : (dfFromRecords R).isEmptyDf = false) :
    ((write_posts_metrics (gridRecords (writtenGrid (write_posts_metrics E R now ts)))
        R now ts).writes.length =
      (write_posts_metrics E R now ts).writes.length ∧
     (write_posts_metrics (gridRecords (writtenGrid (write_posts_metrics E R now ts)))
        R now ts).writes ≠ []) ∧
    writtenGrid (write_posts_metrics
        (gridRecords (writtenGrid
          (write_posts_metrics [snapshotRow] [batchRow] "T1" "updated_at")))
        [batchRow] "T1" "updated_at") =
      writtenGrid (write_posts_metrics [snapshotRow] [batchRow] "T1" "updated_at") := by
  obtain ⟨w1, n1, hw1, _⟩ := write_posts_metrics_single_write E R now ts hR
  obtain ⟨w2, n2, hw2, _⟩ :=
    write_posts_metrics_single_write
      (gridRecords (writtenGrid (write_posts_metrics E R now ts))) R now ts hR
  refine ⟨⟨?_, ?_⟩, ?_⟩
  · rw [hw1, hw2]
    rfl
  · rw [hw2]
    exact List.cons_ne_nil _ _
  · decide

/-- C6 witness: the re-merge shape at the concrete one-row scenario. -/
theorem c6_remerge_reissues_full_write_witness :
    (dfFromRecords [batchRow]).isEmptyDf = false ∧
    (((write_posts_metrics
        (gridRecords (writtenGrid
          (write_posts_metrics [snapshotRow] [batchRow] "T1" "updated_at")))
        [batchRow] "T1" "updated_at").writes.length =
      (write_posts_metrics [snapshotRow] [batchRow] "T1" "updated_at").writes.length ∧
     (write_posts_metrics
        (gridRecords (writtenGrid
          (write_posts_metrics [snapshotRow] [batchRow] "T1" "updated_at")))
        [batchRow] "T1" "updated_at").writes ≠ []) ∧
    writtenGrid (write_posts_metrics
        (gridRecords (writtenGrid
          (write_posts_metrics [snapshotRow] [batchRow] "T1" "updated_at")))
        [batchRow] "T1" "updated_at") =
      writtenGrid (write_posts_metrics [snapshotRow] [batchRow] "T1" "updated_at")) :=
  ⟨by decide,
   c6_remerge_reissues_full_write [snapshotRow] [batchRow] "T1" "updated_at" (by decide)⟩

/-- C6 counterexample: a snapshot holding two rows with the same key collapses
to one merged row, so the first write pads the grid with a blank row; the
second merge reads that blank row back as data and sorts its empty key first,
so the second write's grid differs from the first — the second merge is not a
content no-op. -/
theorem c6_merge_idempotence_counterexample :
    (write_posts_metrics
        (gridRecords (writtenGrid
          (write_posts_metrics [duplicateKeyRowA, duplicateKeyRowB]
            [collapsedBatchRow] "T1" "updated_at")))
        [collapsedBatchRow] "T1" "updated_at").writes ≠ [] ∧
    ¬ writtenGrid (write_posts_metrics
        (gridRecords (writtenGrid
          (write_posts_metrics [duplicateKeyRowA, duplicateKeyRowB]
            [collapsedBatchRow] "T1" "updated_at")))
        [collapsedBatchRow] "T1" "updated_at") =
      writtenGrid (write_posts_metrics [duplicateKeyRowA, duplicateKeyRowB]
        [collapsedBatchRow] "T1" "updated_at") := by decide

/-- C7 witness: with both key columns present in the batch, a concrete
snapshot/batch merge has pairwise distinct normalised composite keys. -/
theorem c7_merge_key_uniqueness_witness :
    ("account_name" ∈
        (dfFromRecords [[("account_name", Value.str "a"),
          ("post_id", Value.str "2")]]).cols ∨
     "post_id" ∈
        (dfFromRecords [[("account_name", Value.str "a"),
          ("post_id", Value.str "2")]]).cols) ∧
    (merge_existing
        (dfFromRecords [[("account_name", Value.str "a"), ("post_id", Value.str "1")]])
        (dfFromRecords [[("account_name", Value.str "a"), ("post_id", Value.str "2")]])
        "updated_at").recs.Pairwise (fun r1 r2 =>
      ¬(normalize_key (Record.get r1 "account_name") =
          normalize_key (Record.get r2 "account_name") ∧
        normalize_key (Record.get r1 "post_id") =
          normalize_key (Record.get r2 "post_id"))) :=
  ⟨Or.inl (by decide),
   c7_merge_key_uniqueness
     (dfFromRecords [[("account_name", Value.str "a"), ("post_id", Value.str "1")]])
     (dfFromRecords [[("account_name", Value.str "a"), ("post_id", Value.str "2")]])
     "updated_at" (Or.inl (by decide))⟩

end ThreadsMetrics
